import Mathlib

/-!
# MicrophoneDetectorApp: the BLE controller and the monitor loop

A shallow embedding of `src/MicrophoneDetectorApp.cpp`:

* `ArduinoBLEController` (lines 193-512): the fields of the class and its member
  functions as state transformers.  Every call into the Bluetooth transport is
  an input (an *outcome*) of the member function that makes it, and every call
  made is recorded in the returned list of `Event`s.
* `monitorThread` (lines 675-748): one pass of the `while` body, first over the
  values the link and the sensor return (`monitorIteration`), then composed
  with the controller (`monitorStep`, `monitorRun`).

Times are `std::chrono::steady_clock` readings in nanoseconds, as integers; the
64-bit range of the clock (about 292 years) is not modelled.  Handles of
transport objects are natural numbers, `none` is the null handle.
-/

namespace MicrophoneDetector

/-! ## Data model -/

/-- Time point of `std::chrono::steady_clock`, in nanoseconds. -/
abbrev TimePoint := Int

/-- The constant `RECONNECT_DELAY{ 3 }` (line 201), three seconds in nanoseconds. -/
def RECONNECT_DELAY : Int := 3000000000

/-- The constant `SCAN_TIMEOUT{ 8 }` (line 202), eight seconds in nanoseconds. -/
def SCAN_TIMEOUT : Int := 8000000000

/-- The data members of `class ArduinoBLEController` (lines 195-204).  The mutex
is not a field of the model: every member function runs as one atomic step. -/
structure ArduinoBLEController where
  device : Option Nat
  switchCharacteristic : Option Nat
  gattService : Option Nat
  isConnected : Bool
  isConnecting : Bool
  lastConnectionAttempt : TimePoint
  connectionStatusToken : Int
  deriving DecidableEq, Repr

/-- Calls the program makes into the Bluetooth transport, and the two places
where the controller commits to an attempt or to a write. -/
inductive Event where
  /-- Call of `device.ConnectionStatusChanged(connectionStatusToken)` (line 480). -/
  | unregisterStatusHandler (token : Int)
  /-- Call of `gattService.Close()` (line 494). -/
  | closeService (h : Nat)
  /-- Call of `device.Close()` (line 504). -/
  | closeDevice (h : Nat)
  /-- Call of `device.ConnectionStatus()` (lines 250, 374, 428). -/
  | queryConnectionStatus
  /-- Lines 275-276: the attempt passed both guards and recorded its start. -/
  | attemptStarted (t : TimePoint)
  /-- Call of `watcher.Start()` (line 301). -/
  | watcherStart
  /-- Call of `watcher.Stop()` (line 310). -/
  | watcherStop
  /-- Call of `BluetoothLEDevice::FromBluetoothAddressAsync` (line 322). -/
  | fromBluetoothAddress (addr : Nat)
  /-- Call of `device.ConnectionStatusChanged(handler)` (line 332). -/
  | registerStatusHandler
  /-- Call of `device.GetGattServicesAsync()` (line 352). -/
  | getGattServices
  /-- Call of `service.GetCharacteristicsAsync()` (line 385). -/
  | getCharacteristics (service : Nat)
  /-- Call of `switchCharacteristic.WriteValueAsync(buffer)` with the one byte of the buffer (line 438). -/
  | writeValue (byte : Nat)
  /-- The monitor loop calls `setLEDState(state)` (line 704). -/
  | setLEDStateCalled (state : Bool)
  /-- The monitor loop calls `UpdateTrayIcon(connected, micInUse)` (line 723). -/
  | updateTrayIcon (connected micActive : Bool)
  deriving DecidableEq, Repr

/-- What `device.ConnectionStatus()` does when called. -/
inductive StatusOutcome where
  | connected
  | notConnected
  | throws
  deriving DecidableEq, Repr

/-- Behaviour of the transport during one `cleanupConnection`: each of the three
calls sits in its own `try`/`catch (...)`. -/
structure CleanupEnv where
  unregisterThrows : Bool
  closeServiceThrows : Bool
  closeDeviceThrows : Bool
  deriving DecidableEq, Repr

/-! ## Construction, eligibility, status -/

/-- The constructor (lines 229-231) run at time `now`, with the default member
initialisers of lines 195-204. -/
def ArduinoBLEController.construct (now : TimePoint) : ArduinoBLEController :=
  { device := none
    switchCharacteristic := none
    gattService := none
    isConnected := false
    isConnecting := false
    lastConnectionAttempt := now - RECONNECT_DELAY
    connectionStatusToken := 0 }

/-- Member function `shouldAttemptReconnect` (lines 237-241); `now` is the clock reading of
line 239.  It assigns to no field, so the controller comes back as it went in. -/
def shouldAttemptReconnect (now : TimePoint) (c : ArduinoBLEController) :
    Bool × ArduinoBLEController :=
  (!c.isConnected && !c.isConnecting && decide (now - c.lastConnectionAttempt ≥ RECONNECT_DELAY), c)

/-- Member function `getConnectionStatus` (lines 243-262). -/
def getConnectionStatus (q : StatusOutcome) (c : ArduinoBLEController) :
    Bool × ArduinoBLEController × List Event :=
  if !c.isConnected || c.device.isNone then
    (false, c, [])
  else
    match q with
    | .throws => (false, { c with isConnected := false }, [.queryConnectionStatus])
    | .connected =>
        let connected := true
        let c1 := if !connected && c.isConnected then { c with isConnected := false } else c
        (connected, c1, [.queryConnectionStatus])
    | .notConnected =>
        let connected := false
        let c1 := if !connected && c.isConnected then { c with isConnected := false } else c
        (connected, c1, [.queryConnectionStatus])

/-- The handler registered at lines 332-344, run when the transport raises
`ConnectionStatusChanged`; `q` is what `sender.ConnectionStatus()` does. -/
def onConnectionStatusChanged (q : StatusOutcome) (c : ArduinoBLEController) :
    ArduinoBLEController :=
  match q with
  | .notConnected => { c with isConnected := false }
  | .connected => c
  | .throws => c

/-! ## Teardown -/

/-- Member function `cleanupConnection` (lines 473-511). -/
def cleanupConnection (e : CleanupEnv) (c : ArduinoBLEController) :
    ArduinoBLEController × List Event :=
  let c1 := { c with isConnected := false, isConnecting := false }
  let r2 : ArduinoBLEController × List Event :=
    if c1.device.isSome && c1.connectionStatusToken != 0 then
      if e.unregisterThrows then
        (c1, [.unregisterStatusHandler c1.connectionStatusToken])
      else
        ({ c1 with connectionStatusToken := 0 }, [.unregisterStatusHandler c1.connectionStatusToken])
    else (c1, [])
  let c3 :=
    if r2.1.switchCharacteristic.isSome then { r2.1 with switchCharacteristic := none } else r2.1
  let r4 : ArduinoBLEController × List Event :=
    match c3.gattService with
    | some h => ({ c3 with gattService := none }, [.closeService h])
    | none => (c3, [])
  let r5 : ArduinoBLEController × List Event :=
    match r4.1.device with
    | some h => ({ r4.1 with device := none }, [.closeDevice h])
    | none => (r4.1, [])
  (r5.1, r2.2 ++ r4.2 ++ r5.2)

/-- Member function `disconnect` (lines 461-464). -/
def disconnect (e : CleanupEnv) (c : ArduinoBLEController) :
    ArduinoBLEController × List Event :=
  cleanupConnection e c

/-- Member function `forceReconnect` (lines 466-470); `now` is the clock reading of line 469. -/
def forceReconnect (e : CleanupEnv) (now : TimePoint) (c : ArduinoBLEController) :
    ArduinoBLEController × List Event :=
  let r := disconnect e c
  ({ r.1 with lastConnectionAttempt := now - RECONNECT_DELAY }, r.2)

/-! ## The characteristic identifier -/

/-- The type `winrt::guid`: `Data1` (32 bits), `Data2`, `Data3` (16 bits) and the
eight bytes of `Data4`. -/
structure Guid where
  Data1 : Nat
  Data2 : Nat
  Data3 : Nat
  Data4 : List Nat
  deriving DecidableEq, Repr

/-- The constant `SWITCH_CHARACTERISTIC_UUID` (line 203). -/
def SWITCH_CHARACTERISTIC_UUID : String := "19B10001-E8F2-537E-4F6C-D104768A1214"

/-- Value of one hexadecimal digit, `none` for any other character. -/
def hexDigitValue (ch : Char) : Option Nat :=
  if '0' ≤ ch ∧ ch ≤ '9' then some (ch.toNat - '0'.toNat)
  else if 'a' ≤ ch ∧ ch ≤ 'f' then some (ch.toNat - 'a'.toNat + 10)
  else if 'A' ≤ ch ∧ ch ≤ 'F' then some (ch.toNat - 'A'.toNat + 10)
  else none

/-- The digit loop of `wcstoul` in base 16: reads digits up to the first
character that is not one. -/
def wcstoulDigits : List Char → Nat → Nat
  | [], acc => acc
  | ch :: rest, acc =>
      match hexDigitValue ch with
      | some d => wcstoulDigits rest (acc * 16 + d)
      | none => acc

/-- The largest `unsigned long` of the Windows ABI, where the type has 32 bits. -/
def ULONG_MAX : Nat := 4294967295

/-- The C library predicate `iswspace` in the "C" locale: space, and the
control characters from horizontal tab (9) to carriage return (13). -/
def iswspace (ch : Char) : Bool :=
  ch == ' ' || (9 ≤ ch.toNat && ch.toNat ≤ 13)

/-- The C library function `std::wcstoul(s, nullptr, 16)` as the C standard
describes it: leading white space, an optional sign, an optional `0x`, then the
digits; a value out of range gives `ULONG_MAX`, a minus sign negates in
`unsigned long`. -/
def wcstoul16 (s : List Char) : Nat :=
  let s1 := s.dropWhile iswspace
  let signed : Bool × List Char :=
    match s1 with
    | '-' :: r => (true, r)
    | '+' :: r => (false, r)
    | _ => (false, s1)
  let s3 :=
    match signed.2 with
    | '0' :: 'x' :: r => r
    | '0' :: 'X' :: r => r
    | _ => signed.2
  let v := wcstoulDigits s3 0
  if v > ULONG_MAX then ULONG_MAX
  else if signed.1 then (ULONG_MAX + 1 - v) % (ULONG_MAX + 1)
  else v

/-- The call `std::wstring::substr(pos, n)`: `none` stands for the
`std::out_of_range` it throws when `pos` is past the end. -/
def substr (s : List Char) (pos n : Nat) : Option (List Char) :=
  if pos > s.length then none else some ((s.drop pos).take n)

/-- Member function `parseUUID` (lines 207-226): the hyphens are erased, then the eleven
fields are cut out with `substr` and read with `wcstoul`; the casts to
`uint32_t`, `uint16_t` and `uint8_t` are the remainders.  The eight bytes of
`Data4` start at positions 16, 18, ..., 30.  The result is `none` when a
`substr` throws. -/
def parseUUID (uuidStr : String) : Option Guid :=
  let cleanUuid := uuidStr.toList.filter (fun ch => ch != '-')
  match substr cleanUuid 0 8, substr cleanUuid 8 4, substr cleanUuid 12 4,
      [16, 18, 20, 22, 24, 26, 28, 30].mapM (fun pos => substr cleanUuid pos 2) with
  | some d1, some d2, some d3, some bytes =>
    some
      { Data1 := wcstoul16 d1 % 2 ^ 32
        Data2 := wcstoul16 d2 % 2 ^ 16
        Data3 := wcstoul16 d3 % 2 ^ 16
        Data4 := bytes.map (fun b => wcstoul16 b % 2 ^ 8) }
  | _, _, _, _ => none

/-! ## Writing the switch -/

/-- What `switchCharacteristic.WriteValueAsync(buffer).get()` does. -/
inductive WriteOutcome where
  | success
  | failure
  | throws
  deriving DecidableEq, Repr

/-- Behaviour of the transport during one `setLEDState`. -/
structure WriteEnv where
  /-- Outcome of `device.ConnectionStatus()` at line 428. -/
  status : StatusOutcome
  /-- Whether building the buffer (lines 434-436) throws. -/
  bufferThrows : Bool
  /-- Outcome of the write of line 438. -/
  write : WriteOutcome
  deriving DecidableEq, Repr

/-- Member function `setLEDState` (lines 420-459). -/
def setLEDState (e : WriteEnv) (state : Bool) (c : ArduinoBLEController) :
    Bool × ArduinoBLEController × List Event :=
  if !c.isConnected || c.switchCharacteristic.isNone then
    (false, c, [])
  else if c.device.isNone then
    (false, { c with isConnected := false }, [])
  else
    match e.status with
    | .throws => (false, { c with isConnected := false }, [.queryConnectionStatus])
    | .notConnected => (false, { c with isConnected := false }, [.queryConnectionStatus])
    | .connected =>
      if e.bufferThrows then
        (false, { c with isConnected := false }, [.queryConnectionStatus])
      else
        let byte : Nat := if state then 1 else 0
        match e.write with
        | .success => (true, c, [.queryConnectionStatus, .writeValue byte])
        | .failure =>
            (false, { c with isConnected := false }, [.queryConnectionStatus, .writeValue byte])
        | .throws =>
            (false, { c with isConnected := false }, [.queryConnectionStatus, .writeValue byte])

/-! ## Connecting -/

/-- One characteristic as the transport lists it. -/
structure Characteristic where
  handle : Nat
  uuid : Guid
  deriving DecidableEq, Repr

/-- What `service.GetCharacteristicsAsync().get()` does (line 385). -/
inductive CharacteristicsOutcome where
  | success (characteristics : List Characteristic)
  | failure
  | throws
  deriving DecidableEq, Repr

/-- One service as the transport lists it, with the answer it gives when asked
for its characteristics. -/
structure Service where
  handle : Nat
  characteristics : CharacteristicsOutcome
  deriving DecidableEq, Repr

/-- The type `GattDeviceServicesResult`: whether `Status()` is `Success`, and `Services()`. -/
structure GattDeviceServicesResult where
  statusSuccess : Bool
  services : List Service
  deriving DecidableEq, Repr

/-- What `device.GetGattServicesAsync().get()` does (line 352). -/
inductive GattOutcome where
  | result (r : GattDeviceServicesResult)
  | throws
  deriving DecidableEq, Repr

/-- What the advertisement scan of lines 284-310 does: `throws` when
`watcher.Start()` raises, otherwise the values of `deviceFound`, `g_shouldExit`
and `targetDeviceAddress` read at line 312 and after. -/
inductive ScanOutcome where
  | throws
  | finished (deviceFound shouldExit : Bool) (targetDeviceAddress : Nat)
  deriving DecidableEq, Repr

/-- What `FromBluetoothAddressAsync(...).get()` does (lines 322-323); the device
it returns may be null. -/
inductive DeviceOutcome where
  | throws
  | result (device : Option Nat)
  deriving DecidableEq, Repr

/-- What registering the status handler does (line 332). -/
inductive RegisterOutcome where
  | throws
  | token (value : Int)
  deriving DecidableEq, Repr

/-- Behaviour of the clock, the exit flag and the transport during one
`connectToArduino`. -/
structure ConnectEnv where
  /-- Clock reading of line 275. -/
  now : TimePoint
  /-- Transport behaviour in the `cleanupConnection` of line 280. -/
  cleanupFirst : CleanupEnv
  scan : ScanOutcome
  deviceTask : DeviceOutcome
  registerHandler : RegisterOutcome
  /-- Value of `g_shouldExit` at the head of the retry loop (line 350), by the
  number of enumeration calls made so far. -/
  exitAtRetry : Nat → Bool
  /-- Outcome of the enumeration call of line 352, by the number of calls made before it. -/
  gatt : Nat → GattOutcome
  /-- Outcome of `device.ConnectionStatus()` at line 374. -/
  status : StatusOutcome
  /-- Transport behaviour in the `cleanupConnection` of a failing path
  (lines 369, 376, 401, 408, 414); one call runs at most one of them. -/
  cleanupOnFailure : CleanupEnv

/-- The retry loop of lines 347-365, from `retries` tries left, `call` calls
made and the current `gattResult`; returns the final `gattResult`. -/
def gattRetryLoop (exitAtRetry : Nat → Bool) (gatt : Nat → GattOutcome) :
    (retries : Nat) → (call : Nat) → Option GattDeviceServicesResult →
    Option GattDeviceServicesResult × List Event
  | 0, _, gattResult => (gattResult, [])
  | retries + 1, call, gattResult =>
    if exitAtRetry call then (gattResult, [])
    else
      match gatt call with
      | .result g =>
        if g.statusSuccess then (some g, [.getGattServices])
        else
          let rest := gattRetryLoop exitAtRetry gatt retries (call + 1) (some g)
          (rest.1, .getGattServices :: rest.2)
      | .throws =>
        let rest := gattRetryLoop exitAtRetry gatt retries (call + 1) gattResult
        (rest.1, .getGattServices :: rest.2)

/-- How the search of lines 384-398 ends. -/
inductive FindOutcome where
  | found (service characteristic : Nat)
  | notFound
  | threw
  deriving DecidableEq, Repr

/-- The two nested loops of lines 384-398 over `gattResult.Services()`. -/
def findSwitchCharacteristic (switchUuid : Guid) : List Service → FindOutcome × List Event
  | [] => (.notFound, [])
  | service :: rest =>
    match service.characteristics with
    | .throws => (.threw, [.getCharacteristics service.handle])
    | .failure =>
      let r := findSwitchCharacteristic switchUuid rest
      (r.1, .getCharacteristics service.handle :: r.2)
    | .success characteristics =>
      match characteristics.find? (fun ch => ch.uuid == switchUuid) with
      | some ch => (.found service.handle ch.handle, [.getCharacteristics service.handle])
      | none =>
        let r := findSwitchCharacteristic switchUuid rest
        (r.1, .getCharacteristics service.handle :: r.2)

/-- How the `try` block of `connectToArduino` (lines 278-405) ends: with a
`return`, or with an exception on its way to the handlers of lines 406-417. -/
inductive TryResult where
  | returned (result : Bool) (c : ArduinoBLEController) (events : List Event)
  | threw (c : ArduinoBLEController) (events : List Event)

/-- The failing exits of lines 368-371, 375-378 and 400-403: `cleanupConnection`,
`isConnecting = false`, `return false`. -/
def failAttempt (e : ConnectEnv) (c : ArduinoBLEController) (events : List Event) : TryResult :=
  let r := cleanupConnection e.cleanupOnFailure c
  .returned false { r.1 with isConnecting := false } (events ++ r.2)

/-- Lines 388-403: what the outcome of the search does to the controller.  A
match stores the two handles and sets `isConnected`; no match is a failing
exit; an exception leaves for the handlers. -/
def commitSearch (e : ConnectEnv) (c : ArduinoBLEController) (events : List Event)
    (f : FindOutcome × List Event) : TryResult :=
  match f.1 with
  | .threw => .threw c (events ++ f.2)
  | .found service characteristic =>
    .returned true
      { c with
        switchCharacteristic := some characteristic
        gattService := some service
        isConnected := true
        isConnecting := false }
      (events ++ f.2)
  | .notFound => failAttempt e c (events ++ f.2)

/-- Lines 367-403: the checks after the retry loop and the search for the
switch characteristic. -/
def resolveCharacteristic (e : ConnectEnv) (c : ArduinoBLEController) (events : List Event)
    (gattResult : Option GattDeviceServicesResult) : TryResult :=
  match gattResult with
  | none => failAttempt e c events
  | some g =>
    if !g.statusSuccess then failAttempt e c events
    else
      match e.status with
      | .throws => .threw c (events ++ [.queryConnectionStatus])
      | .notConnected => failAttempt e c (events ++ [.queryConnectionStatus])
      | .connected =>
        match parseUUID SWITCH_CHARACTERISTIC_UUID with
        | none => .threw c (events ++ [.queryConnectionStatus])
        | some switchUuid =>
          commitSearch e c (events ++ [.queryConnectionStatus])
            (findSwitchCharacteristic switchUuid g.services)

/-- Lines 282-403 of the `try` block: the scan and everything after it, run on
the controller `c1` that the `cleanupConnection` of line 280 left, `events1`
being the events so far. -/
def scanAndResolve (e : ConnectEnv) (c1 : ArduinoBLEController) (events1 : List Event) :
    TryResult :=
  match e.scan with
  | .throws => .threw c1 (events1 ++ [.watcherStart])
  | .finished deviceFound shouldExit targetDeviceAddress =>
    let events2 := events1 ++ [.watcherStart, .watcherStop]
    if shouldExit || !deviceFound then
      .returned false { c1 with isConnecting := false } events2
    else
      let events3 := events2 ++ [.fromBluetoothAddress targetDeviceAddress]
      match e.deviceTask with
      | .throws => .threw c1 events3
      | .result device =>
        let c2 := { c1 with device := device }
        if device.isNone then
          .returned false { c2 with isConnecting := false } events3
        else
          let events4 := events3 ++ [.registerStatusHandler]
          match e.registerHandler with
          | .throws => .threw c2 events4
          | .token value =>
            let c3 := { c2 with connectionStatusToken := value }
            let g := gattRetryLoop e.exitAtRetry e.gatt 3 0 none
            resolveCharacteristic e c3 (events4 ++ g.2) g.1

/-- The `try` block of `connectToArduino` (lines 278-405), entered with
`lastConnectionAttempt` and `isConnecting` already set: `cleanupConnection`
(line 280), then the scan and the rest. -/
def connectAttempt (e : ConnectEnv) (c0 : ArduinoBLEController) : TryResult :=
  let r1 := cleanupConnection e.cleanupFirst c0
  scanAndResolve e r1.1 r1.2

/-- How `connectToArduino` leaves its `try` statement: a `return` inside the
block stands, an exception runs a handler of lines 406-417
(`cleanupConnection`, `isConnecting = false`, `return false`). -/
def catchHandlers (e : ConnectEnv) : TryResult → Bool × ArduinoBLEController × List Event
  | .returned result c events => (result, c, events)
  | .threw c events =>
    let r := cleanupConnection e.cleanupOnFailure c
    (false, { r.1 with isConnecting := false }, events ++ r.2)

/-- Member function `connectToArduino` (lines 264-418). -/
def connectToArduino (e : ConnectEnv) (c : ArduinoBLEController) :
    Bool × ArduinoBLEController × List Event :=
  if c.isConnected then (true, c, [])
  else if c.isConnecting then (false, c, [])
  else
    let c0 := { c with lastConnectionAttempt := e.now, isConnecting := true }
    let r := catchHandlers e (connectAttempt e c0)
    (r.1, r.2.1, .attemptStarted e.now :: r.2.2)

/-! ## The monitor loop -/

/-- The three locals of `monitorThread` that live across iterations (lines 678-680). -/
structure MonitorState where
  lastMicState : Bool
  lastConnectedState : Bool
  forceStateUpdate : Bool
  deriving DecidableEq, Repr

/-- The initial values of lines 678-680. -/
def MonitorState.initial : MonitorState :=
  { lastMicState := false, lastConnectedState := false, forceStateUpdate := false }

/-- What the link and the sensor return during one iteration.  A value is read
only if its call is made. -/
structure LinkInputs where
  /-- Result of `getConnectionStatus()` (line 687). -/
  status : Bool
  /-- Result of `shouldAttemptReconnect()` (line 690). -/
  eligible : Bool
  /-- Result of `connectToArduino()` (line 692). -/
  connectResult : Bool
  /-- Result of `isMicrophoneInUse()` (line 699). -/
  micInUse : Bool
  /-- Result of `setLEDState(micInUse)` (line 704). -/
  writeResult : Bool
  deriving DecidableEq, Repr

/-- One iteration as seen from outside: the new locals, the calls made, and the
values of `connected` and `forceStateUpdate` on the way. -/
structure IterationResult where
  state : MonitorState
  /-- Whether `connectToArduino()` was called (line 692). -/
  connectCalled : Bool
  /-- Value of `connected` after lines 687-696. -/
  connectedAfterConnect : Bool
  /-- Value of `forceStateUpdate` when line 702 is reached. -/
  forceBeforeWrite : Bool
  /-- Argument of the call `setLEDState(micInUse)` of line 704, if it is made. -/
  setLEDStateCall : Option Bool
  /-- Value of `connected` when the iteration ends. -/
  connectedAtEnd : Bool
  /-- Arguments of the call `UpdateTrayIcon(connected, micInUse)` of line 723, if it is made. -/
  trayUpdate : Option (Bool × Bool)
  deriving DecidableEq, Repr

/-- The body of the `while` loop of `monitorThread`, lines 686-725.  The
heartbeat of lines 727-733 only logs.  The member functions of the controller
catch what the transport throws, so the handlers of lines 736-741 are not
reached from them. -/
def monitorIteration (i : LinkInputs) (s : MonitorState) : IterationResult :=
  -- line 687
  let connected0 := i.status
  -- lines 690-696
  let attempt := !connected0 && i.eligible
  let connected1 := if attempt then i.connectResult else connected0
  let force1 := if attempt && connected1 then true else s.forceStateUpdate
  -- line 699
  let micInUse := i.micInUse
  -- lines 702-712
  let write := (micInUse != s.lastMicState || force1) && connected1
  let lastMic2 := if write && i.writeResult then micInUse else s.lastMicState
  let force2 := if write && i.writeResult then false else force1
  let connected2 := if write && !i.writeResult then false else connected1
  -- lines 715-725
  let edge := connected2 != s.lastConnectedState
  let force3 := if edge && connected2 then true else force2
  let lastConnected3 := if edge then connected2 else s.lastConnectedState
  { state :=
      { lastMicState := lastMic2, lastConnectedState := lastConnected3, forceStateUpdate := force3 }
    connectCalled := attempt
    connectedAfterConnect := connected1
    forceBeforeWrite := force1
    setLEDStateCall := if write then some micInUse else none
    connectedAtEnd := connected2
    trayUpdate := if edge then some (connected2, micInUse) else none }

/-- A run of iterations over the values the link and the sensor return: the
final locals and the arguments of the `setLEDState` calls, in order. -/
def monitorIterations : List LinkInputs → MonitorState → MonitorState × List Bool
  | [], s => (s, [])
  | i :: rest, s =>
    let r := monitorIteration i s
    let tail := monitorIterations rest r.state
    (tail.1, r.setLEDStateCall.toList ++ tail.2)

/-- Behaviour of the clock, the sensor and the transport during one iteration
against the controller.  A `disconnectNotified` flag says that the transport
raises `ConnectionStatusChanged` with status `Disconnected` while the
controller is unlocked, just before the named call. -/
structure StepEnv where
  disconnectNotifiedBeforeStatus : Bool
  /-- Outcome of `device.ConnectionStatus()` inside `getConnectionStatus` (line 250). -/
  status : StatusOutcome
  disconnectNotifiedBeforeEligible : Bool
  /-- Clock reading of line 239 inside `shouldAttemptReconnect`. -/
  nowEligible : TimePoint
  disconnectNotifiedBeforeConnect : Bool
  connect : ConnectEnv
  /-- Result of `g_monitor.isMicrophoneInUse()` (line 699). -/
  micInUse : Bool
  disconnectNotifiedBeforeWrite : Bool
  write : WriteEnv

/-- Runs the status handler if the transport raised the notification. -/
def deliver (notified : Bool) (c : ArduinoBLEController) : ArduinoBLEController :=
  if notified then onConnectionStatusChanged .notConnected c else c

/-- Controller, locals and events after one iteration. -/
structure StepResult where
  controller : ArduinoBLEController
  state : MonitorState
  events : List Event
  deriving DecidableEq, Repr

/-- Lines 687-696 against the controller: what the three member functions
return, and the controller and events they leave. -/
structure ConnectPhase where
  status : Bool
  eligible : Bool
  connectResult : Bool
  /-- Whether `connectToArduino()` is called (line 692). -/
  attempt : Bool
  controller : ArduinoBLEController
  events : List Event

/-- Lines 687-696 of `monitorThread` against `g_bleController`. -/
def connectPhase (e : StepEnv) (c : ArduinoBLEController) : ConnectPhase :=
  -- line 687
  let r1 := getConnectionStatus e.status (deliver e.disconnectNotifiedBeforeStatus c)
  -- line 690, reached when `connected` is false
  let c1 := if r1.1 then r1.2.1 else deliver e.disconnectNotifiedBeforeEligible r1.2.1
  let r2 := shouldAttemptReconnect e.nowEligible c1
  -- line 692, reached when `shouldAttemptReconnect()` is true
  let attempt := !r1.1 && r2.1
  let r3 := connectToArduino e.connect (deliver e.disconnectNotifiedBeforeConnect r2.2)
  { status := r1.1
    eligible := r2.1
    connectResult := r3.1
    attempt := attempt
    controller := if attempt then r3.2.1 else c1
    events := r1.2.2 ++ (if attempt then r3.2.2 else []) }

/-- One iteration of `monitorThread` (lines 686-725) against `g_bleController`:
the values `monitorIteration` reads are the results of the member functions,
each run on the controller as the calls before it left it. -/
def monitorStep (e : StepEnv) (c : ArduinoBLEController) (s : MonitorState) : StepResult :=
  -- lines 687-696
  let p := connectPhase e c
  -- line 704, reached when the condition of line 702 holds
  let r4 := setLEDState e.write e.micInUse (deliver e.disconnectNotifiedBeforeWrite p.controller)
  let it := monitorIteration
    { status := p.status, eligible := p.eligible, connectResult := p.connectResult,
      micInUse := e.micInUse, writeResult := r4.1 } s
  let written := it.setLEDStateCall.isSome
  { controller := if written then r4.2.1 else p.controller
    state := it.state
    events :=
      p.events
        ++ (if written then .setLEDStateCalled e.micInUse :: r4.2.2 else [])
        ++ (match it.trayUpdate with
            | some (connected, micActive) => [.updateTrayIcon connected micActive]
            | none => []) }

/-- A run of iterations against the controller: the final controller and
locals, and all events in order. -/
def monitorRun : List StepEnv → ArduinoBLEController → MonitorState → StepResult
  | [], c, s => { controller := c, state := s, events := [] }
  | e :: rest, c, s =>
    let r := monitorStep e c s
    let tail := monitorRun rest r.controller r.state
    { tail with events := r.events ++ tail.events }

/-- The start times of the connection attempts in a list of events, in order. -/
def attemptTimes : List Event → List TimePoint
  | [] => []
  | .attemptStarted t :: rest => t :: attemptTimes rest
  | _ :: rest => attemptTimes rest

/-- The bytes written to the switch characteristic in a list of events, in order. -/
def bytesWritten : List Event → List Nat
  | [] => []
  | .writeValue byte :: rest => byte :: bytesWritten rest
  | _ :: rest => bytesWritten rest

/-- The arguments of the `setLEDState` calls of the loop in a list of events, in order. -/
def ledCalls : List Event → List Bool
  | [] => []
  | .setLEDStateCalled state :: rest => state :: ledCalls rest
  | _ :: rest => ledCalls rest

/-! ## Sample behaviours of the transport -/

/-- A transport on which no release call throws. -/
def quietCleanup : CleanupEnv :=
  { unregisterThrows := false, closeServiceThrows := false, closeDeviceThrows := false }

/-- The identifier the peripheral gives its switch characteristic. -/
def switchGuid : Guid :=
  { Data1 := 0x19B10001, Data2 := 0xE8F2, Data3 := 0x537E,
    Data4 := [0x4F, 0x6C, 0xD1, 0x04, 0x76, 0x8A, 0x12, 0x14] }

/-- A connect attempt at time `now` with the peripheral in range: the scan
finds it, the device opens, the first enumeration succeeds and the one service
lists the switch characteristic. -/
def peripheralPresent (now : TimePoint) : ConnectEnv :=
  { now := now
    cleanupFirst := quietCleanup
    scan := .finished true false 7
    deviceTask := .result (some 1)
    registerHandler := .token 5
    exitAtRetry := fun _ => false
    gatt := fun _ =>
      .result
        { statusSuccess := true
          services :=
            [{ handle := 2, characteristics := .success [{ handle := 3, uuid := switchGuid }] }] }
    status := .connected
    cleanupOnFailure := quietCleanup }

/-- A connect attempt at time `now` with the peripheral out of range: the scan
times out. -/
def peripheralAbsent (now : TimePoint) : ConnectEnv :=
  { peripheralPresent now with scan := .finished false false 0 }

/-- A write the transport accepts. -/
def acceptedWrite : WriteEnv :=
  { status := .connected, bufferThrows := false, write := .success }

/-- One iteration with no disconnect notification and every write accepted. -/
def calmStep (status : StatusOutcome) (nowEligible : TimePoint) (connect : ConnectEnv)
    (micInUse : Bool) : StepEnv :=
  { disconnectNotifiedBeforeStatus := false
    status := status
    disconnectNotifiedBeforeEligible := false
    nowEligible := nowEligible
    disconnectNotifiedBeforeConnect := false
    connect := connect
    micInUse := micInUse
    disconnectNotifiedBeforeWrite := false
    write := acceptedWrite }

/-- A controller as a successful `connectToArduino` leaves it. -/
def connectedController : ArduinoBLEController :=
  { device := some 1
    switchCharacteristic := some 3
    gattService := some 2
    isConnected := true
    isConnecting := false
    lastConnectionAttempt := 0
    connectionStatusToken := 5 }

/-! ## Conditions on a run against the controller -/

/-- The controller holds a connection: `isConnected` with a device and a
characteristic handle. -/
def ArduinoBLEController.linked (c : ArduinoBLEController) : Prop :=
  c.isConnected = true ∧ c.device.isSome = true ∧ c.switchCharacteristic.isSome = true

instance (c : ArduinoBLEController) : Decidable c.linked := by
  unfold ArduinoBLEController.linked
  infer_instance

/-- During the iteration the link stays connected and writes succeed: no
disconnect is notified, the device reports connected to the status query and
inside `setLEDState`, and the write returns `Success`. -/
def StepEnv.linkStaysUp (e : StepEnv) : Prop :=
  e.disconnectNotifiedBeforeStatus = false ∧ e.status = .connected ∧
    e.disconnectNotifiedBeforeWrite = false ∧ e.write = acceptedWrite

instance (e : StepEnv) : Decidable e.linkStaysUp := by
  unfold StepEnv.linkStaysUp
  infer_instance

/-- The clock readings a run may take, in program order: for each iteration
that of `shouldAttemptReconnect` (line 239), then that of `connectToArduino`
(line 275). -/
def clockReadings : List StepEnv → List TimePoint
  | [] => []
  | e :: rest => e.nowEligible :: e.connect.now :: clockReadings rest

/-- The clock never runs backwards during the run. -/
def ClockMonotone (envs : List StepEnv) : Prop :=
  List.Chain' (fun a b : TimePoint => a ≤ b) (clockReadings envs)

/-- Two attempt times at least `RECONNECT_DELAY` apart. -/
def SpacedApart (a b : TimePoint) : Prop :=
  b - a ≥ RECONNECT_DELAY

instance (a b : TimePoint) : Decidable (SpacedApart a b) := by
  unfold SpacedApart
  infer_instance

/-- The controller a `TryResult` carries. -/
def TryResult.controller : TryResult → ArduinoBLEController
  | .returned _ c _ => c
  | .threw c _ => c

/-- The events a `TryResult` carries. -/
def TryResult.events : TryResult → List Event
  | .returned _ _ events => events
  | .threw _ events => events

/-! ## Conditions on the controller -/

/-- The byte `setLEDState(state)` puts in the buffer (line 435). -/
def ledByte (state : Bool) : Nat :=
  if state then 1 else 0

/-- The connection is released: the three handles are null and both flags are false. -/
def ArduinoBLEController.released (c : ArduinoBLEController) : Prop :=
  c.device = none ∧ c.gattService = none ∧ c.switchCharacteristic = none ∧
    c.isConnected = false ∧ c.isConnecting = false

instance (c : ArduinoBLEController) : Decidable c.released := by
  unfold ArduinoBLEController.released
  infer_instance

/-- The connection is established: `isConnected` is set, no attempt is in
flight, and the device and characteristic handles are present. -/
def ArduinoBLEController.established (c : ArduinoBLEController) : Prop :=
  c.isConnected = true ∧ c.isConnecting = false ∧ c.device.isSome = true ∧
    c.switchCharacteristic.isSome = true

instance (c : ArduinoBLEController) : Decidable c.established := by
  unfold ArduinoBLEController.established
  infer_instance

/-- The invariant of the controller: `isConnected` implies that the device and
characteristic handles are present. -/
def ArduinoBLEController.handlesPresent (c : ArduinoBLEController) : Prop :=
  c.isConnected = true → c.device.isSome = true ∧ c.switchCharacteristic.isSome = true

instance (c : ArduinoBLEController) : Decidable c.handlesPresent := by
  unfold ArduinoBLEController.handlesPresent
  infer_instance

/-- The states the controller can be in: the state the constructor leaves, and
every state one of the member functions or the status handler leaves when
called on such a state, whatever the clock and the transport do. -/
inductive Reachable : ArduinoBLEController → Prop where
  | constructed (now : TimePoint) : Reachable (ArduinoBLEController.construct now)
  | afterEligibility (now : TimePoint) (c : ArduinoBLEController) :
      Reachable c → Reachable (shouldAttemptReconnect now c).2
  | afterStatus (q : StatusOutcome) (c : ArduinoBLEController) :
      Reachable c → Reachable (getConnectionStatus q c).2.1
  | afterNotification (q : StatusOutcome) (c : ArduinoBLEController) :
      Reachable c → Reachable (onConnectionStatusChanged q c)
  | afterCleanup (e : CleanupEnv) (c : ArduinoBLEController) :
      Reachable c → Reachable (cleanupConnection e c).1
  | afterDisconnect (e : CleanupEnv) (c : ArduinoBLEController) :
      Reachable c → Reachable (disconnect e c).1
  | afterForceReconnect (e : CleanupEnv) (now : TimePoint) (c : ArduinoBLEController) :
      Reachable c → Reachable (forceReconnect e now c).1
  | afterWrite (e : WriteEnv) (state : Bool) (c : ArduinoBLEController) :
      Reachable c → Reachable (setLEDState e state c).2.1
  | afterConnect (e : ConnectEnv) (c : ArduinoBLEController) :
      Reachable c → Reachable (connectToArduino e c).2.1

/-- What a finished `try` block owes the controller: after `return true` the
connection is established, after `return false` it is released; an exception
still has the handlers to run. -/
def TryResult.settled : TryResult → Prop
  | .returned true c _ => c.established
  | .returned false c _ => c.released
  | .threw _ _ => True

/-- The controller as lines 275-276 leave it when `connectToArduino` has passed
both guards: the attempt is recorded and flagged as in flight. -/
def attemptEntry (e : ConnectEnv) (c : ArduinoBLEController) : ArduinoBLEController :=
  { c with lastConnectionAttempt := e.now, isConnecting := true }

/-- A controller after a failed write: `isConnected` is false again while the
three handles and the status token of the lost connection are still held. -/
def degradedController : ArduinoBLEController :=
  { device := some 1
    switchCharacteristic := some 3
    gattService := some 2
    isConnected := false
    isConnecting := false
    lastConnectionAttempt := 0
    connectionStatusToken := 5 }

/-- Whether an enumeration outcome is `Success`; an exception is not. -/
def GattOutcome.succeeded : GattOutcome → Bool
  | .result g => g.statusSuccess
  | .throws => false

/-- The condition of line 367, `!gattResult || gattResult.Status() != Success`:
resolution has failed. -/
def resolutionFailed : Option GattDeviceServicesResult → Bool
  | none => true
  | some g => !g.statusSuccess

/-- The number of calls of `device.GetGattServicesAsync()` in a list of events. -/
def enumerationCalls (events : List Event) : Nat :=
  events.count Event.getGattServices

/-- The exit flag of a run in which no shutdown is requested. -/
def noShutdown : Nat → Bool :=
  fun _ => false

/-! ## Well-formed identifiers and their canonical text -/

/-- Whether a character is a hexadecimal digit, `0-9`, `a-f` or `A-F`. -/
def isHexDigit (ch : Char) : Bool :=
  (hexDigitValue ch).isSome

/-- The value of a run of hexadecimal digits read as one number in base 16,
most significant digit first, as the claim about `parseUUID` words it. -/
def hexValue (digits : List Char) : Nat :=
  digits.foldl (fun acc ch => acc * 16 + (hexDigitValue ch).getD 0) 0

/-- The value of the `n` hexadecimal digits that start at position `pos` of a
run of digits. -/
def hexDigitsAt (digits : List Char) (pos n : Nat) : Nat :=
  hexValue ((digits.drop pos).take n)

/-- A field of exactly `n` hexadecimal digits. -/
def hexField (n : Nat) (d : List Char) : Prop :=
  d.length = n ∧ d.all isHexDigit = true

instance (n : Nat) (d : List Char) : Decidable (hexField n d) := by
  unfold hexField
  infer_instance

/-- The text of an identifier from its five fields, hyphens between them: the
form 8-4-4-4-12 when the fields have those lengths. -/
def uuidText (d1 d2 d3 d4 d5 : List Char) : String :=
  String.mk (d1 ++ '-' :: (d2 ++ '-' :: (d3 ++ '-' :: (d4 ++ '-' :: d5))))

/-- The upper-case hexadecimal digit of a value below 16. -/
def upperHexDigit (d : Nat) : Char :=
  if d < 10 then Char.ofNat ('0'.toNat + d) else Char.ofNat ('A'.toNat + (d - 10))

/-- The `width` low hexadecimal digits of `value` in upper case, most
significant first. -/
def upperHex : (width : Nat) → (value : Nat) → List Char
  | 0, _ => []
  | width + 1, value => upperHex width (value / 16) ++ [upperHexDigit (value % 16)]

/-- The canonical upper-case text of a guid, as the claim about `parseUUID`
words it: `Data1`, `Data2`, `Data3`, the first two bytes of `Data4` and its
last six, in hexadecimal with hyphens between them. -/
def canonicalUpperCase (g : Guid) : String :=
  uuidText (upperHex 8 g.Data1) (upperHex 4 g.Data2) (upperHex 4 g.Data3)
    ((g.Data4.take 2).flatMap (upperHex 2)) ((g.Data4.drop 2).flatMap (upperHex 2))

/-- Whether a character is an upper-case hexadecimal digit, `0-9` or `A-F`. -/
def isUpperHexDigit (ch : Char) : Bool :=
  decide ('0' ≤ ch ∧ ch ≤ '9') || decide ('A' ≤ ch ∧ ch ≤ 'F')

/-- A field of exactly `n` upper-case hexadecimal digits. -/
def upperHexField (n : Nat) (d : List Char) : Prop :=
  d.length = n ∧ d.all isUpperHexDigit = true

instance (n : Nat) (d : List Char) : Decidable (upperHexField n d) := by
  unfold upperHexField
  infer_instance

/-- An enumeration that throws on the first call and succeeds from the second
on, listing one service with the switch characteristic. -/
def flakyEnumeration : Nat → GattOutcome :=
  fun call =>
    if call = 0 then .throws
    else
      .result
        { statusSuccess := true
          services :=
            [{ handle := 2, characteristics := .success [{ handle := 3, uuid := switchGuid }] }] }

/-- The controller when the retry loop of line 350 is reached: cleaned at
line 280, then holding the device of line 323 and the token of line 332. -/
def resolutionEntry (e : ConnectEnv) (c : ArduinoBLEController) (device : Nat) (token : Int) :
    ArduinoBLEController :=
  { (cleanupConnection e.cleanupFirst (attemptEntry e c)).1 with
    device := some device, connectionStatusToken := token }

/-- The events of the `try` block up to the retry loop of line 350: the release
calls of line 280, the scan, the opening of the device and the registration of
the status handler. -/
def eventsBeforeResolution (e : ConnectEnv) (c : ArduinoBLEController) (address : Nat) :
    List Event :=
  (cleanupConnection e.cleanupFirst (attemptEntry e c)).2 ++
    [Event.watcherStart, Event.watcherStop] ++ [Event.fromBluetoothAddress address] ++
    [Event.registerStatusHandler]

/-- An attempt that reaches the retry loop with no shutdown requested: the scan
finds the peripheral at `address`, the device opens as `device`, the handler
registers with `token`, and `g_shouldExit` stays false. -/
def ConnectEnv.reachesResolution (e : ConnectEnv) (address device : Nat) (token : Int) : Prop :=
  e.scan = .finished true false address ∧ e.deviceTask = .result (some device) ∧
    e.registerHandler = .token token ∧ e.exitAtRetry = noShutdown

/-- A connect attempt at time `now` with the peripheral in range whose
enumeration throws once before it succeeds. -/
def flakyPeripheral (now : TimePoint) : ConnectEnv :=
  { peripheralPresent now with gatt := flakyEnumeration }

/-- The link is down for the whole iteration: the status query says so, and a
connect attempt is not made or fails. -/
def LinkInputs.staysDown (i : LinkInputs) : Prop :=
  i.status = false ∧ (i.eligible = false ∨ i.connectResult = false)

instance (i : LinkInputs) : Decidable i.staysDown := by
  unfold LinkInputs.staysDown
  infer_instance

/-- The iteration of the successful connect attempt: the link was down, the
attempt is made and succeeds, the sensor reads `m` and a write succeeds. -/
def LinkInputs.connects (m : Bool) (i : LinkInputs) : Prop :=
  i.status = false ∧ i.eligible = true ∧ i.connectResult = true ∧ i.micInUse = m ∧
    i.writeResult = true

instance (m : Bool) (i : LinkInputs) : Decidable (i.connects m) := by
  unfold LinkInputs.connects
  infer_instance

/-- The link stays connected: the status query says so, the sensor reads `m`
and a write succeeds. -/
def LinkInputs.staysUp (m : Bool) (i : LinkInputs) : Prop :=
  i.status = true ∧ i.micInUse = m ∧ i.writeResult = true

instance (m : Bool) (i : LinkInputs) : Decidable (i.staysUp m) := by
  unfold LinkInputs.staysUp
  infer_instance

/-! ## The monitor loop over the values the link returns -/

/-- C1: in one iteration of the monitor loop, for every state of the locals and
every value returned by the link and the sensor (the forced-update flag
included), if `connected` is false after the status query and the optional
connect attempt, then `setLEDState` is not called and `lastMicState` keeps its
value. -/
theorem no_write_while_disconnected (i : LinkInputs) (s : MonitorState)
    (h : (monitorIteration i s).connectedAfterConnect = false) :
    (monitorIteration i s).setLEDStateCall = none ∧
      (monitorIteration i s).state.lastMicState = s.lastMicState := by
  have hcall : (monitorIteration i s).setLEDStateCall =
      if ((i.micInUse != s.lastMicState || (monitorIteration i s).forceBeforeWrite) &&
          (monitorIteration i s).connectedAfterConnect) then some i.micInUse else none := rfl
  have hmic : (monitorIteration i s).state.lastMicState =
      if (((i.micInUse != s.lastMicState || (monitorIteration i s).forceBeforeWrite) &&
          (monitorIteration i s).connectedAfterConnect) && i.writeResult) then i.micInUse
      else s.lastMicState := rfl
  rw [hcall, hmic, h]
  simp

/-- Witness of C1: the sensor reports `true`, the forced-update flag is set, the
link is down and not eligible for an attempt. -/
theorem no_write_while_disconnected_witness :
    (monitorIteration
        { status := false, eligible := false, connectResult := false, micInUse := true,
          writeResult := true }
        { lastMicState := false, lastConnectedState := false, forceStateUpdate := true }
      ).connectedAfterConnect = false ∧
    (monitorIteration
        { status := false, eligible := false, connectResult := false, micInUse := true,
          writeResult := true }
        { lastMicState := false, lastConnectedState := false, forceStateUpdate := true }
      ).setLEDStateCall = none :=
  ⟨by decide,
   (no_write_while_disconnected
      { status := false, eligible := false, connectResult := false, micInUse := true,
        writeResult := true }
      { lastMicState := false, lastConnectedState := false, forceStateUpdate := true }
      (by decide)).1⟩

/-- C3: for every state of the locals, an iteration that ends with
`connected = true` while `lastConnectedState` was false leaves
`forceStateUpdate` true; and the next iteration, if the link still reports
connected, calls `setLEDState` with the value it senses, whatever
`lastMicState` is. -/
theorem rising_edge_forces_next_write (i : LinkInputs) (s : MonitorState)
    (hend : (monitorIteration i s).connectedAtEnd = true)
    (hlast : s.lastConnectedState = false) :
    (monitorIteration i s).state.forceStateUpdate = true ∧
      ∀ j : LinkInputs, j.status = true →
        (monitorIteration j (monitorIteration i s).state).setLEDStateCall = some j.micInUse := by
  have hforce : (monitorIteration i s).state.forceStateUpdate = true := by
    have hdef : (monitorIteration i s).state.forceStateUpdate =
        if ((monitorIteration i s).connectedAtEnd != s.lastConnectedState) &&
            (monitorIteration i s).connectedAtEnd then true
        else if ((i.micInUse != s.lastMicState || (monitorIteration i s).forceBeforeWrite) &&
            (monitorIteration i s).connectedAfterConnect) && i.writeResult then false
        else (monitorIteration i s).forceBeforeWrite := rfl
    rw [hdef, hend, hlast]
    rfl
  refine ⟨hforce, ?_⟩
  intro j hj
  generalize (monitorIteration i s).state = t at hforce
  simp [monitorIteration, hj, hforce]

/-- Witness of C3: the link comes up in an iteration that senses `false`, the
value `lastMicState` already holds; the next iteration senses `false` again
and calls `setLEDState(false)`. -/
theorem rising_edge_forces_next_write_witness :
    (monitorIteration
        { status := true, eligible := false, connectResult := false, micInUse := false,
          writeResult := true }
        { lastMicState := false, lastConnectedState := false, forceStateUpdate := false }
      ).state.forceStateUpdate = true ∧
    (monitorIteration
        { status := true, eligible := false, connectResult := false, micInUse := false,
          writeResult := true }
        (monitorIteration
          { status := true, eligible := false, connectResult := false, micInUse := false,
            writeResult := true }
          { lastMicState := false, lastConnectedState := false, forceStateUpdate := false }
        ).state).setLEDStateCall = some false :=
  ⟨(rising_edge_forces_next_write
      { status := true, eligible := false, connectResult := false, micInUse := false,
        writeResult := true }
      { lastMicState := false, lastConnectedState := false, forceStateUpdate := false }
      (by decide) (by decide)).1,
   (rising_edge_forces_next_write
      { status := true, eligible := false, connectResult := false, micInUse := false,
        writeResult := true }
      { lastMicState := false, lastConnectedState := false, forceStateUpdate := false }
      (by decide) (by decide)).2
      { status := true, eligible := false, connectResult := false, micInUse := false,
        writeResult := true }
      rfl⟩

/-- C4: for every state of the locals, in an iteration where `setLEDState` is
called and returns false, `lastMicState` keeps the value it had before the
iteration, `forceStateUpdate` keeps the value it had just before the write,
`connected` is false when the iteration ends and `lastConnectedState` is false
after it. -/
theorem failed_write_marks_disconnected (i : LinkInputs) (s : MonitorState)
    (hcall : (monitorIteration i s).setLEDStateCall.isSome = true)
    (hfail : i.writeResult = false) :
    (monitorIteration i s).state.lastMicState = s.lastMicState ∧
      (monitorIteration i s).state.forceStateUpdate = (monitorIteration i s).forceBeforeWrite ∧
      (monitorIteration i s).connectedAtEnd = false ∧
      (monitorIteration i s).state.lastConnectedState = false := by
  have hwrite : ((i.micInUse != s.lastMicState || (monitorIteration i s).forceBeforeWrite) &&
      (monitorIteration i s).connectedAfterConnect) = true := by
    have hdef : (monitorIteration i s).setLEDStateCall =
        if ((i.micInUse != s.lastMicState || (monitorIteration i s).forceBeforeWrite) &&
            (monitorIteration i s).connectedAfterConnect) then some i.micInUse else none := rfl
    rw [hdef] at hcall
    by_contra hne
    simp [hne] at hcall
  have hmic : (monitorIteration i s).state.lastMicState =
      if (((i.micInUse != s.lastMicState || (monitorIteration i s).forceBeforeWrite) &&
          (monitorIteration i s).connectedAfterConnect) && i.writeResult) then i.micInUse
      else s.lastMicState := rfl
  have hend : (monitorIteration i s).connectedAtEnd =
      if (((i.micInUse != s.lastMicState || (monitorIteration i s).forceBeforeWrite) &&
          (monitorIteration i s).connectedAfterConnect) && !i.writeResult) then false
      else (monitorIteration i s).connectedAfterConnect := rfl
  have hforce : (monitorIteration i s).state.forceStateUpdate =
      if ((monitorIteration i s).connectedAtEnd != s.lastConnectedState) &&
          (monitorIteration i s).connectedAtEnd then true
      else if ((i.micInUse != s.lastMicState || (monitorIteration i s).forceBeforeWrite) &&
          (monitorIteration i s).connectedAfterConnect) && i.writeResult then false
      else (monitorIteration i s).forceBeforeWrite := rfl
  have hlast : (monitorIteration i s).state.lastConnectedState =
      if ((monitorIteration i s).connectedAtEnd != s.lastConnectedState) then
        (monitorIteration i s).connectedAtEnd
      else s.lastConnectedState := rfl
  have hend0 : (monitorIteration i s).connectedAtEnd = false := by
    rw [hend, hwrite, hfail]; rfl
  refine ⟨?_, ?_, hend0, ?_⟩
  · rw [hmic, hwrite, hfail]; rfl
  · rw [hforce, hend0, hwrite, hfail]; simp
  · rw [hlast, hend0]
    cases s.lastConnectedState <;> rfl

/-- Witness of C4: connected, the sensed value changes and the write fails. -/
theorem failed_write_marks_disconnected_witness :
    (monitorIteration
        { status := true, eligible := false, connectResult := false, micInUse := true,
          writeResult := false }
        { lastMicState := false, lastConnectedState := true, forceStateUpdate := false }
      ).state =
      { lastMicState := false, lastConnectedState := false, forceStateUpdate := false } ∧
    (monitorIteration
        { status := true, eligible := false, connectResult := false, micInUse := true,
          writeResult := false }
        { lastMicState := false, lastConnectedState := true, forceStateUpdate := false }
      ).state.lastConnectedState = false :=
  ⟨by decide,
   (failed_write_marks_disconnected
      { status := true, eligible := false, connectResult := false, micInUse := true,
        writeResult := false }
      { lastMicState := false, lastConnectedState := true, forceStateUpdate := false }
      (by decide) (by decide)).2.2.2⟩

/-! ### Runs of iterations -/

theorem monitorIterations_append (l1 l2 : List LinkInputs) (s : MonitorState) :
    monitorIterations (l1 ++ l2) s =
      ((monitorIterations l2 (monitorIterations l1 s).1).1,
        (monitorIterations l1 s).2 ++ (monitorIterations l2 (monitorIterations l1 s).1).2) := by
  induction l1 generalizing s with
  | nil => simp [monitorIterations]
  | cons i rest ih => simp [monitorIterations, ih, List.append_assoc]

theorem monitorIteration_staysDown (i : LinkInputs) (s : MonitorState)
    (h : i.staysDown) (hs : s.lastConnectedState = false) :
    (monitorIteration i s).state = s ∧ (monitorIteration i s).setLEDStateCall = none := by
  obtain ⟨status, eligible, connectResult, micInUse, writeResult⟩ := i
  obtain ⟨lastMic, lastConnected, force⟩ := s
  obtain ⟨h1, h2⟩ := h
  simp only at h1 h2 hs
  subst h1 hs
  rcases h2 with h2 | h2 <;> subst h2 <;> simp [monitorIteration]

theorem monitorIterations_staysDown (pre : List LinkInputs) (s : MonitorState)
    (h : ∀ i ∈ pre, i.staysDown) (hs : s.lastConnectedState = false) :
    monitorIterations pre s = (s, []) := by
  induction pre with
  | nil => rfl
  | cons i rest ih =>
    have hi := monitorIteration_staysDown i s (h i (List.mem_cons_self i rest)) hs
    have hrest := ih (fun j hj => h j (List.mem_cons_of_mem i hj))
    simp [monitorIterations, hi.1, hi.2, hrest]

theorem monitorIteration_connects (m : Bool) (i : LinkInputs) (h : i.connects m) :
    (monitorIteration i MonitorState.initial).state =
        { lastMicState := m, lastConnectedState := true, forceStateUpdate := true } ∧
      (monitorIteration i MonitorState.initial).setLEDStateCall = some m := by
  obtain ⟨status, eligible, connectResult, micInUse, writeResult⟩ := i
  obtain ⟨h1, h2, h3, h4, h5⟩ := h
  simp only at h1 h2 h3 h4 h5
  subst h1 h2 h3 h4 h5
  cases micInUse <;> simp [monitorIteration, MonitorState.initial]

theorem monitorIteration_staysUp_forced (m : Bool) (j : LinkInputs) (h : j.staysUp m) :
    (monitorIteration j
        { lastMicState := m, lastConnectedState := true, forceStateUpdate := true }).state =
        { lastMicState := m, lastConnectedState := true, forceStateUpdate := false } ∧
      (monitorIteration j
        { lastMicState := m, lastConnectedState := true, forceStateUpdate := true }
        ).setLEDStateCall = some m := by
  obtain ⟨status, eligible, connectResult, micInUse, writeResult⟩ := j
  obtain ⟨h1, h2, h3⟩ := h
  simp only at h1 h2 h3
  subst h1 h2 h3
  cases micInUse <;> simp [monitorIteration]

theorem monitorIteration_staysUp_steady (m : Bool) (j : LinkInputs) (h : j.staysUp m) :
    (monitorIteration j
        { lastMicState := m, lastConnectedState := true, forceStateUpdate := false }).state =
        { lastMicState := m, lastConnectedState := true, forceStateUpdate := false } ∧
      (monitorIteration j
        { lastMicState := m, lastConnectedState := true, forceStateUpdate := false }
        ).setLEDStateCall = none := by
  obtain ⟨status, eligible, connectResult, micInUse, writeResult⟩ := j
  obtain ⟨h1, h2, h3⟩ := h
  simp only at h1 h2 h3
  subst h1 h2 h3
  cases micInUse <;> simp [monitorIteration]

theorem monitorIterations_staysUp_steady (m : Bool) (post : List LinkInputs)
    (h : ∀ j ∈ post, j.staysUp m) :
    monitorIterations post
        { lastMicState := m, lastConnectedState := true, forceStateUpdate := false } =
      ({ lastMicState := m, lastConnectedState := true, forceStateUpdate := false }, []) := by
  induction post with
  | nil => rfl
  | cons j rest ih =>
    have hj := monitorIteration_staysUp_steady m j (h j (List.mem_cons_self j rest))
    have hrest := ih (fun k hk => h k (List.mem_cons_of_mem j hk))
    simp [monitorIterations, hj.1, hj.2, hrest]

/-- C2, the claim at a run of two iterations: from the initial locals the first
iteration finds the link down, connects and writes, the second finds the link
connected; the sensor reads `false` throughout and both writes succeed.
`setLEDState(false)` is called twice, not once.  The last two parts run the
same two iterations against a controller constructed at time 0 with the
peripheral in range: two calls, two bytes written. -/
theorem duplicate_write_after_connect :
    LinkInputs.connects false
        { status := false, eligible := true, connectResult := true, micInUse := false,
          writeResult := true } ∧
      LinkInputs.staysUp false
        { status := true, eligible := false, connectResult := false, micInUse := false,
          writeResult := true } ∧
      (monitorIterations
          [{ status := false, eligible := true, connectResult := true, micInUse := false,
             writeResult := true },
           { status := true, eligible := false, connectResult := false, micInUse := false,
             writeResult := true }]
          MonitorState.initial).2 = [false, false] ∧
      (monitorIterations
          [{ status := false, eligible := true, connectResult := true, micInUse := false,
             writeResult := true },
           { status := true, eligible := false, connectResult := false, micInUse := false,
             writeResult := true }]
          MonitorState.initial).2.length ≠ 1 ∧
      ledCalls (monitorRun
          [calmStep .connected 0 (peripheralPresent 0) false,
           calmStep .connected 1000000000 (peripheralPresent 1000000000) false]
          (ArduinoBLEController.construct 0) MonitorState.initial).events = [false, false] ∧
      bytesWritten (monitorRun
          [calmStep .connected 0 (peripheralPresent 0) false,
           calmStep .connected 1000000000 (peripheralPresent 1000000000) false]
          (ArduinoBLEController.construct 0) MonitorState.initial).events = [0, 0] := by
  refine ⟨?_, ?_, ?_, ?_, ?_, ?_⟩
  · simp [LinkInputs.connects]
  · simp [LinkInputs.staysUp]
  · decide
  · decide
  · decide
  · decide

/-- C2 as amended: in a run from the initial locals where the link is down, then
a connect attempt succeeds, then the link stays connected, with every write
succeeding and the sensor reading `m` from the connect on, `setLEDState(m)` is
called once in the iteration of the connect and once more in the iteration
after it, and in no other iteration: one call if the run ends with the
connect, two otherwise. -/
theorem writes_after_connect (pre post : List LinkInputs) (ci : LinkInputs) (m : Bool)
    (hpre : ∀ i ∈ pre, i.staysDown) (hci : ci.connects m) (hpost : ∀ j ∈ post, j.staysUp m) :
    (monitorIterations (pre ++ ci :: post) MonitorState.initial).2 =
      if post.isEmpty then [m] else [m, m] := by
  have h1 := monitorIterations_staysDown pre MonitorState.initial hpre rfl
  have h2 := monitorIteration_connects m ci hci
  rw [monitorIterations_append, h1]
  cases post with
  | nil => simp [monitorIterations, h2.2]
  | cons j rest =>
    have h3 := monitorIteration_staysUp_forced m j (hpost j (List.mem_cons_self j rest))
    have h4 := monitorIterations_staysUp_steady m rest
      (fun k hk => hpost k (List.mem_cons_of_mem j hk))
    simp [monitorIterations, h2.1, h2.2, h3.1, h3.2, h4]

/-- Witness of the amended C2: one failed attempt, the connect, then three
iterations connected, the sensor reading `true`. -/
theorem writes_after_connect_witness :
    (monitorIterations
        ([{ status := false, eligible := true, connectResult := false, micInUse := true,
            writeResult := true }] ++
          { status := false, eligible := true, connectResult := true, micInUse := true,
            writeResult := true } ::
          List.replicate 3
            { status := true, eligible := false, connectResult := false, micInUse := true,
              writeResult := true })
        MonitorState.initial).2 = [true, true] :=
  writes_after_connect _ _ _ true
    (by simp [LinkInputs.staysDown])
    (by simp [LinkInputs.connects])
    (by simp [LinkInputs.staysUp])

/-! ## The controller -/

theorem cleanupConnection_released (e : CleanupEnv) (c : ArduinoBLEController) :
    (cleanupConnection e c).1.device = none ∧
      (cleanupConnection e c).1.gattService = none ∧
      (cleanupConnection e c).1.switchCharacteristic = none ∧
      (cleanupConnection e c).1.isConnected = false ∧
      (cleanupConnection e c).1.isConnecting = false ∧
      (cleanupConnection e c).1.lastConnectionAttempt = c.lastConnectionAttempt := by
  obtain ⟨device, characteristic, service, connected, connecting, last, token⟩ := c
  obtain ⟨u, cs, cd⟩ := e
  cases device <;> cases characteristic <;> cases service <;> cases u <;>
    by_cases ht : token = 0 <;> simp [cleanupConnection, ht]

theorem cleanupConnection_idle (e : CleanupEnv) (c : ArduinoBLEController)
    (hconnected : c.isConnected = false) (hconnecting : c.isConnecting = false)
    (hdevice : c.device = none) (hservice : c.gattService = none)
    (hcharacteristic : c.switchCharacteristic = none) :
    cleanupConnection e c = (c, []) := by
  obtain ⟨device, characteristic, service, connected, connecting, last, token⟩ := c
  simp only at hconnected hconnecting hdevice hservice hcharacteristic
  subst hconnected hconnecting hdevice hservice hcharacteristic
  simp [cleanupConnection]

/-- C8: for every controller state and every time `now`,
`shouldAttemptReconnect` returns true exactly when `isConnected` is false,
`isConnecting` is false and `now - lastConnectionAttempt` is at least
`RECONNECT_DELAY`, which is three seconds; and it changes no field. -/
theorem shouldAttemptReconnect_iff (now : TimePoint) (c : ArduinoBLEController) :
    ((shouldAttemptReconnect now c).1 = true ↔
        c.isConnected = false ∧ c.isConnecting = false ∧
          now - c.lastConnectionAttempt ≥ RECONNECT_DELAY) ∧
      (shouldAttemptReconnect now c).2 = c ∧
      RECONNECT_DELAY = 3 * 1000000000 := by
  refine ⟨?_, rfl, by decide⟩
  simp [shouldAttemptReconnect, and_assoc]

/-- C7: for every controller state, after `forceReconnect` at time `now` the
connection is torn down (both flags false, the three handles null) and
`lastConnectionAttempt` is `now - RECONNECT_DELAY`, so `shouldAttemptReconnect`
at any time not earlier than `now` returns true, whatever
`lastConnectionAttempt` was before. -/
theorem forceReconnect_resets (e : CleanupEnv) (now : TimePoint) (c : ArduinoBLEController) :
    (forceReconnect e now c).1.isConnected = false ∧
      (forceReconnect e now c).1.isConnecting = false ∧
      (forceReconnect e now c).1.device = none ∧
      (forceReconnect e now c).1.gattService = none ∧
      (forceReconnect e now c).1.switchCharacteristic = none ∧
      (forceReconnect e now c).1.lastConnectionAttempt = now - RECONNECT_DELAY ∧
      ∀ t : TimePoint, now ≤ t →
        (shouldAttemptReconnect t (forceReconnect e now c).1).1 = true := by
  obtain ⟨hd, hs, hc, h1, h2, _⟩ := cleanupConnection_released e c
  refine ⟨h1, h2, hd, hs, hc, rfl, ?_⟩
  intro t ht
  have hcon : (forceReconnect e now c).1.isConnected = false := h1
  have hing : (forceReconnect e now c).1.isConnecting = false := h2
  have hlast : (forceReconnect e now c).1.lastConnectionAttempt = now - RECONNECT_DELAY := rfl
  have hgap : t - (now - RECONNECT_DELAY) ≥ RECONNECT_DELAY := by
    have ht1 : (now : Int) ≤ t := ht
    show (RECONNECT_DELAY : Int) ≤ t - (now - RECONNECT_DELAY)
    linarith
  simp only [shouldAttemptReconnect, hcon, hing, hlast]
  simpa using hgap

/-- Witness of C7: a connected controller whose last attempt was at time 0 is
reset at time 1000 and is eligible at that very time. -/
theorem forceReconnect_resets_witness :
    (shouldAttemptReconnect 1000 connectedController).1 = false ∧
      (shouldAttemptReconnect 1000 (forceReconnect quietCleanup 1000 connectedController).1).1 =
        true :=
  ⟨by decide,
   (forceReconnect_resets quietCleanup 1000 connectedController).2.2.2.2.2.2 1000 (le_refl _)⟩

/-- C9: for every controller state with an attempt in flight (`isConnecting`
true, `isConnected` false), `connectToArduino` returns false, makes no call
into the transport and leaves every field as it was. -/
theorem connectToArduino_in_flight (e : ConnectEnv) (c : ArduinoBLEController)
    (hconnecting : c.isConnecting = true) (hconnected : c.isConnected = false) :
    connectToArduino e c = (false, c, []) := by
  simp [connectToArduino, hconnecting, hconnected]

/-- Witness of C9: a second call while an attempt is in flight, with the
peripheral in range. -/
theorem connectToArduino_in_flight_witness :
    connectToArduino (peripheralPresent 9000000000)
        { device := none, switchCharacteristic := none, gattService := none, isConnected := false,
          isConnecting := true, lastConnectionAttempt := 0, connectionStatusToken := 0 } =
      (false,
        { device := none, switchCharacteristic := none, gattService := none, isConnected := false,
          isConnecting := true, lastConnectionAttempt := 0, connectionStatusToken := 0 },
        []) :=
  connectToArduino_in_flight _ _ rfl rfl

/-- C10: `disconnect` on an idle connection (both flags false, the three
handles null) returns the identical state and makes no call into the
transport; and for every controller state `disconnect` leaves
`lastConnectionAttempt` as it was, and a second `disconnect` changes nothing
the first one left. -/
theorem disconnect_idempotent :
    (∀ (e : CleanupEnv) (c : ArduinoBLEController),
        c.isConnected = false → c.isConnecting = false → c.device = none →
        c.gattService = none → c.switchCharacteristic = none → disconnect e c = (c, [])) ∧
      (∀ (e : CleanupEnv) (c : ArduinoBLEController),
        (disconnect e c).1.lastConnectionAttempt = c.lastConnectionAttempt) ∧
      (∀ (e1 e2 : CleanupEnv) (c : ArduinoBLEController),
        disconnect e2 (disconnect e1 c).1 = ((disconnect e1 c).1, [])) := by
  refine ⟨?_, ?_, ?_⟩
  · intro e c h1 h2 h3 h4 h5
    exact cleanupConnection_idle e c h1 h2 h3 h4 h5
  · intro e c
    exact (cleanupConnection_released e c).2.2.2.2.2
  · intro e1 e2 c
    obtain ⟨hd, hs, hc, h1, h2, _⟩ := cleanupConnection_released e1 c
    exact cleanupConnection_idle e2 _ h1 h2 hd hs hc

/-- Witness of C10: a controller constructed at time 0, idle, and a connected
one disconnected twice. -/
theorem disconnect_idempotent_witness :
    disconnect quietCleanup (ArduinoBLEController.construct 0) =
        (ArduinoBLEController.construct 0, []) ∧
      (disconnect quietCleanup connectedController).2 =
        [.unregisterStatusHandler 5, .closeService 2, .closeDevice 1] ∧
      disconnect quietCleanup (disconnect quietCleanup connectedController).1 =
        ((disconnect quietCleanup connectedController).1, []) :=
  ⟨disconnect_idempotent.1 quietCleanup (ArduinoBLEController.construct 0) rfl rfl rfl rfl rfl,
   by decide,
   disconnect_idempotent.2.2 quietCleanup quietCleanup connectedController⟩

/-! ## The monitor loop against the controller -/

/-- C5: from the steady connected locals (`lastConnectedState` true,
`forceStateUpdate` false, `lastMicState` false), on a controller that holds a
connection, with the link staying connected and writes succeeding: the
iteration that senses `true` calls `setLEDState(true)` once, which writes the
byte 1 once, and sets `lastMicState` to true; the iteration right after it,
sensing `true` again, calls `setLEDState` not at all and writes nothing. -/
theorem one_write_per_change (c : ArduinoBLEController) (e1 e2 : StepEnv)
    (hc : c.linked) (h1 : e1.linkStaysUp) (h2 : e2.linkStaysUp)
    (hm1 : e1.micInUse = true) (hm2 : e2.micInUse = true) :
    ledCalls (monitorStep e1 c
        { lastMicState := false, lastConnectedState := true, forceStateUpdate := false }
      ).events = [true] ∧
    bytesWritten (monitorStep e1 c
        { lastMicState := false, lastConnectedState := true, forceStateUpdate := false }
      ).events = [1] ∧
    (monitorStep e1 c
        { lastMicState := false, lastConnectedState := true, forceStateUpdate := false }
      ).state.lastMicState = true ∧
    ledCalls (monitorStep e2
        (monitorStep e1 c
          { lastMicState := false, lastConnectedState := true, forceStateUpdate := false }
        ).controller
        (monitorStep e1 c
          { lastMicState := false, lastConnectedState := true, forceStateUpdate := false }
        ).state).events = [] ∧
    bytesWritten (monitorStep e2
        (monitorStep e1 c
          { lastMicState := false, lastConnectedState := true, forceStateUpdate := false }
        ).controller
        (monitorStep e1 c
          { lastMicState := false, lastConnectedState := true, forceStateUpdate := false }
        ).state).events = [] := by
  obtain ⟨device, characteristic, service, connected, connecting, last, token⟩ := c
  obtain ⟨hcon, hdev, hch⟩ := hc
  simp only at hcon hdev hch
  subst hcon
  obtain ⟨d, rfl⟩ := Option.isSome_iff_exists.mp hdev
  obtain ⟨ch, rfl⟩ := Option.isSome_iff_exists.mp hch
  obtain ⟨n1, q1, n2, t1, n3, k1, m1, n4, w1⟩ := e1
  obtain ⟨n1b, q2, n2b, t2, n3b, k2, m2, n4b, w2⟩ := e2
  obtain ⟨a1, a2, a3, a4⟩ := h1
  obtain ⟨b1, b2, b3, b4⟩ := h2
  simp only at a1 a2 a3 a4 b1 b2 b3 b4 hm1 hm2
  subst a1 a2 a3 a4 b1 b2 b3 b4 hm1 hm2
  simp [monitorStep, connectPhase, monitorIteration, getConnectionStatus, setLEDState, deliver,
    acceptedWrite, shouldAttemptReconnect, ledCalls, bytesWritten]

/-- Witness of C5: the connected controller, two calm iterations sensing `true`. -/
theorem one_write_per_change_witness :
    bytesWritten (monitorStep (calmStep .connected 0 (peripheralAbsent 0) true)
        connectedController
        { lastMicState := false, lastConnectedState := true, forceStateUpdate := false }
      ).events = [1] :=
  (one_write_per_change connectedController
    (calmStep .connected 0 (peripheralAbsent 0) true)
    (calmStep .connected 0 (peripheralAbsent 0) true)
    ⟨rfl, rfl, rfl⟩ ⟨rfl, rfl, rfl, rfl⟩ ⟨rfl, rfl, rfl, rfl⟩ rfl rfl).2.1

/-! ### Spacing of the attempts -/

theorem attemptTimes_append (l1 l2 : List Event) :
    attemptTimes (l1 ++ l2) = attemptTimes l1 ++ attemptTimes l2 := by
  induction l1 with
  | nil => rfl
  | cons ev rest ih => cases ev <;> simp [attemptTimes, ih]

theorem attemptTimes_cleanupConnection (e : CleanupEnv) (c : ArduinoBLEController) :
    attemptTimes (cleanupConnection e c).2 = [] := by
  obtain ⟨device, characteristic, service, connected, connecting, last, token⟩ := c
  obtain ⟨u, cs, cd⟩ := e
  cases device <;> cases characteristic <;> cases service <;> cases u <;>
    by_cases ht : token = 0 <;> simp [cleanupConnection, ht, attemptTimes]

theorem attemptTimes_gattRetryLoop (exitAtRetry : Nat → Bool) (gatt : Nat → GattOutcome)
    (retries call : Nat) (gattResult : Option GattDeviceServicesResult) :
    attemptTimes (gattRetryLoop exitAtRetry gatt retries call gattResult).2 = [] := by
  induction retries generalizing call gattResult with
  | zero => rfl
  | succ n ih =>
    unfold gattRetryLoop
    split
    · rfl
    · split
      · split
        · rfl
        · simpa [attemptTimes] using ih _ _
      · simpa [attemptTimes] using ih _ _

theorem attemptTimes_findSwitchCharacteristic (switchUuid : Guid) (services : List Service) :
    attemptTimes (findSwitchCharacteristic switchUuid services).2 = [] := by
  induction services with
  | nil => rfl
  | cons service rest ih =>
    unfold findSwitchCharacteristic
    split
    · rfl
    · simpa [attemptTimes] using ih
    · split
      · rfl
      · simpa [attemptTimes] using ih

theorem failAttempt_frame (e : ConnectEnv) (c : ArduinoBLEController) (events : List Event) :
    (failAttempt e c events).controller.lastConnectionAttempt = c.lastConnectionAttempt ∧
      attemptTimes (failAttempt e c events).events = attemptTimes events := by
  have h := (cleanupConnection_released e.cleanupOnFailure c).2.2.2.2.2
  simp [failAttempt, TryResult.controller, TryResult.events, attemptTimes_append,
    attemptTimes_cleanupConnection, h]

theorem commitSearch_frame (e : ConnectEnv) (c : ArduinoBLEController) (events : List Event)
    (f : FindOutcome × List Event) (hf : attemptTimes f.2 = []) :
    (commitSearch e c events f).controller.lastConnectionAttempt = c.lastConnectionAttempt ∧
      attemptTimes (commitSearch e c events f).events = attemptTimes events := by
  obtain ⟨outcome, found⟩ := f
  simp only at hf
  cases outcome with
  | threw => simp [commitSearch, TryResult.controller, TryResult.events, attemptTimes_append, hf]
  | found service characteristic =>
    simp [commitSearch, TryResult.controller, TryResult.events, attemptTimes_append, hf]
  | notFound =>
    have h := failAttempt_frame e c (events ++ found)
    simpa [commitSearch, attemptTimes_append, hf] using h

theorem resolveCharacteristic_frame (e : ConnectEnv) (c : ArduinoBLEController)
    (events : List Event) (gattResult : Option GattDeviceServicesResult) :
    (resolveCharacteristic e c events gattResult).controller.lastConnectionAttempt =
        c.lastConnectionAttempt ∧
      attemptTimes (resolveCharacteristic e c events gattResult).events = attemptTimes events := by
  unfold resolveCharacteristic
  split
  · exact failAttempt_frame e c events
  · split
    · exact failAttempt_frame e c events
    · split
      · simp [TryResult.controller, TryResult.events, attemptTimes_append, attemptTimes]
      · have h := failAttempt_frame e c (events ++ [Event.queryConnectionStatus])
        simpa [attemptTimes_append, attemptTimes] using h
      · split
        · simp [TryResult.controller, TryResult.events, attemptTimes_append, attemptTimes]
        · rename_i g _ _ _ _ switchUuid _
          have h := commitSearch_frame e c (events ++ [Event.queryConnectionStatus])
            (findSwitchCharacteristic switchUuid g.services)
            (attemptTimes_findSwitchCharacteristic switchUuid g.services)
          simpa [attemptTimes_append, attemptTimes] using h

theorem connectAttempt_frame (e : ConnectEnv) (c : ArduinoBLEController) :
    (connectAttempt e c).controller.lastConnectionAttempt = c.lastConnectionAttempt ∧
      attemptTimes (connectAttempt e c).events = [] := by
  have hlast := (cleanupConnection_released e.cleanupFirst c).2.2.2.2.2
  have hev := attemptTimes_cleanupConnection e.cleanupFirst c
  unfold connectAttempt scanAndResolve
  split
  · simp [TryResult.controller, TryResult.events, attemptTimes_append, attemptTimes, hlast, hev]
  · split
    · simp [TryResult.controller, TryResult.events, attemptTimes_append, attemptTimes, hlast, hev]
    · split
      · simp [TryResult.controller, TryResult.events, attemptTimes_append, attemptTimes, hlast,
          hev]
      · split
        · simp [TryResult.controller, TryResult.events, attemptTimes_append, attemptTimes, hlast,
            hev]
        · split
          · simp [TryResult.controller, TryResult.events, attemptTimes_append, attemptTimes,
              hlast, hev]
          · refine ⟨?_, ?_⟩
            · rw [(resolveCharacteristic_frame _ _ _ _).1]
              exact hlast
            · rw [(resolveCharacteristic_frame _ _ _ _).2]
              simp [attemptTimes_append, attemptTimes, hev, attemptTimes_gattRetryLoop]

theorem catchHandlers_frame (e : ConnectEnv) (r : TryResult) :
    (catchHandlers e r).2.1.lastConnectionAttempt = r.controller.lastConnectionAttempt ∧
      attemptTimes (catchHandlers e r).2.2 = attemptTimes r.events := by
  cases r with
  | returned result c events => simp [catchHandlers, TryResult.controller, TryResult.events]
  | threw c events =>
    have hl := (cleanupConnection_released e.cleanupOnFailure c).2.2.2.2.2
    have hv := attemptTimes_cleanupConnection e.cleanupOnFailure c
    simp [catchHandlers, TryResult.controller, TryResult.events, attemptTimes_append, hl, hv]

theorem connectToArduino_attempt (e : ConnectEnv) (c : ArduinoBLEController)
    (hconnected : c.isConnected = false) (hconnecting : c.isConnecting = false) :
    (connectToArduino e c).2.1.lastConnectionAttempt = e.now ∧
      attemptTimes (connectToArduino e c).2.2 = [e.now] := by
  obtain ⟨device, characteristic, service, connected, connecting, last, token⟩ := c
  simp only at hconnected hconnecting
  subst hconnected hconnecting
  have h := connectAttempt_frame e
    { device := device, switchCharacteristic := characteristic, gattService := service,
      isConnected := false, isConnecting := true, lastConnectionAttempt := e.now,
      connectionStatusToken := token }
  have hc := catchHandlers_frame e
    (connectAttempt e
      { device := device, switchCharacteristic := characteristic, gattService := service,
        isConnected := false, isConnecting := true, lastConnectionAttempt := e.now,
        connectionStatusToken := token })
  simp only [connectToArduino]
  simp [attemptTimes, hc.1, hc.2, h.1, h.2]

theorem deliver_frame (notified : Bool) (c : ArduinoBLEController) :
    (deliver notified c).lastConnectionAttempt = c.lastConnectionAttempt ∧
      (deliver notified c).isConnecting = c.isConnecting ∧
      (c.isConnected = false → (deliver notified c).isConnected = false) := by
  cases notified <;> simp [deliver, onConnectionStatusChanged]

theorem getConnectionStatus_frame (q : StatusOutcome) (c : ArduinoBLEController) :
    (getConnectionStatus q c).2.1.lastConnectionAttempt = c.lastConnectionAttempt ∧
      attemptTimes (getConnectionStatus q c).2.2 = [] := by
  unfold getConnectionStatus
  split
  · simp [attemptTimes]
  · cases q <;> cases c.isConnected <;> simp [attemptTimes]

theorem setLEDState_frame (e : WriteEnv) (state : Bool) (c : ArduinoBLEController) :
    (setLEDState e state c).2.1.lastConnectionAttempt = c.lastConnectionAttempt ∧
      attemptTimes (setLEDState e state c).2.2 = [] := by
  obtain ⟨q, bufferThrows, w⟩ := e
  unfold setLEDState
  split
  · simp [attemptTimes]
  · split
    · simp [attemptTimes]
    · cases q <;> cases bufferThrows <;> cases w <;> simp [attemptTimes]

theorem shouldAttemptReconnect_true (now : TimePoint) (c : ArduinoBLEController)
    (h : (shouldAttemptReconnect now c).1 = true) :
    c.isConnected = false ∧ c.isConnecting = false ∧
      now - c.lastConnectionAttempt ≥ RECONNECT_DELAY := by
  simpa [shouldAttemptReconnect, and_assoc] using h

theorem connectPhase_attempts (e : StepEnv) (c : ArduinoBLEController) :
    (attemptTimes (connectPhase e c).events = [] ∧
        (connectPhase e c).controller.lastConnectionAttempt = c.lastConnectionAttempt) ∨
      (attemptTimes (connectPhase e c).events = [e.connect.now] ∧
        (connectPhase e c).controller.lastConnectionAttempt = e.connect.now ∧
        e.nowEligible - c.lastConnectionAttempt ≥ RECONNECT_DELAY) := by
  have hg := getConnectionStatus_frame e.status (deliver e.disconnectNotifiedBeforeStatus c)
  rw [(deliver_frame _ c).1] at hg
  simp only [connectPhase]
  generalize getConnectionStatus e.status (deliver e.disconnectNotifiedBeforeStatus c) = r1
    at hg ⊢
  obtain ⟨b1, c1, ev1⟩ := r1
  simp only at hg
  cases b1 with
  | true =>
    left
    simp [attemptTimes_append, hg.1, hg.2, attemptTimes]
  | false =>
    have hd := deliver_frame e.disconnectNotifiedBeforeEligible c1
    simp only [Bool.false_eq_true, if_false, Bool.not_false, Bool.true_and]
    generalize deliver e.disconnectNotifiedBeforeEligible c1 = c2 at hd ⊢
    cases hel : (shouldAttemptReconnect e.nowEligible c2).1 with
    | false =>
      left
      simp [attemptTimes_append, hg.2, attemptTimes, hd.1, hg.1]
    | true =>
      right
      obtain ⟨h1, h2, h3⟩ := shouldAttemptReconnect_true _ _ hel
      have hd3 := deliver_frame e.disconnectNotifiedBeforeConnect c2
      have hc := connectToArduino_attempt e.connect
        (deliver e.disconnectNotifiedBeforeConnect c2) (hd3.2.2 h1) (hd3.2.1.trans h2)
      have hsame : (shouldAttemptReconnect e.nowEligible c2).2 = c2 := rfl
      rw [hd.1, hg.1] at h3
      simp [attemptTimes_append, hg.2, hsame, hc.1, hc.2, h3]

theorem monitorStep_attempts (e : StepEnv) (c : ArduinoBLEController) (s : MonitorState) :
    (attemptTimes (monitorStep e c s).events = [] ∧
        (monitorStep e c s).controller.lastConnectionAttempt = c.lastConnectionAttempt) ∨
      (attemptTimes (monitorStep e c s).events = [e.connect.now] ∧
        (monitorStep e c s).controller.lastConnectionAttempt = e.connect.now ∧
        e.nowEligible - c.lastConnectionAttempt ≥ RECONNECT_DELAY) := by
  have hw := setLEDState_frame e.write e.micInUse
    (deliver e.disconnectNotifiedBeforeWrite (connectPhase e c).controller)
  rw [(deliver_frame _ _).1] at hw
  have hev : attemptTimes (monitorStep e c s).events = attemptTimes (connectPhase e c).events := by
    simp only [monitorStep, attemptTimes_append]
    have htray : ∀ t : Option (Bool × Bool),
        attemptTimes (match t with
          | some (connected, micActive) => [Event.updateTrayIcon connected micActive]
          | none => []) = [] := by
      intro t
      rcases t with _ | ⟨a, b⟩ <;> rfl
    rw [htray]
    split <;> simp [attemptTimes, hw.2]
  have hlast : (monitorStep e c s).controller.lastConnectionAttempt =
      (connectPhase e c).controller.lastConnectionAttempt := by
    simp only [monitorStep]
    split
    · exact hw.1
    · rfl
  rw [hev, hlast]
  exact connectPhase_attempts e c

theorem attemptTimes_monitorRun_cons (e : StepEnv) (rest : List StepEnv)
    (c : ArduinoBLEController) (s : MonitorState) :
    attemptTimes (monitorRun (e :: rest) c s).events =
      attemptTimes (monitorStep e c s).events ++
        attemptTimes
          (monitorRun rest (monitorStep e c s).controller (monitorStep e c s).state).events := by
  simp [monitorRun, attemptTimes_append]

theorem monitorRun_attempts_chain (envs : List StepEnv) (c : ArduinoBLEController)
    (s : MonitorState) (h : ∀ e ∈ envs, e.nowEligible ≤ e.connect.now) :
    List.Chain SpacedApart c.lastConnectionAttempt
      (attemptTimes (monitorRun envs c s).events) := by
  induction envs generalizing c s with
  | nil => exact List.Chain.nil
  | cons e rest ih =>
    have hrest := ih (monitorStep e c s).controller (monitorStep e c s).state
      (fun k hk => h k (List.mem_cons_of_mem e hk))
    have he : e.nowEligible ≤ e.connect.now := h e (List.mem_cons_self e rest)
    rw [attemptTimes_monitorRun_cons]
    rcases monitorStep_attempts e c s with ⟨h1, h2⟩ | ⟨h1, h2, h3⟩
    · rw [h1, List.nil_append, ← h2]
      exact hrest
    · rw [h1, List.singleton_append]
      rw [h2] at hrest
      refine List.Chain.cons ?_ hrest
      have h3a : (RECONNECT_DELAY : Int) ≤ e.nowEligible - c.lastConnectionAttempt := h3
      have hea : (e.nowEligible : Int) ≤ e.connect.now := he
      show (RECONNECT_DELAY : Int) ≤ e.connect.now - c.lastConnectionAttempt
      linarith

theorem clockMonotone_within (envs : List StepEnv) (h : ClockMonotone envs) :
    ∀ e ∈ envs, e.nowEligible ≤ e.connect.now := by
  induction envs with
  | nil => intro e he; cases he
  | cons e rest ih =>
    have h2 : List.Chain' (fun a b : TimePoint => a ≤ b)
        (e.nowEligible :: e.connect.now :: clockReadings rest) := h
    have hhead : e.nowEligible ≤ e.connect.now := List.Chain'.rel_head h2
    have htail : ClockMonotone rest := (List.Chain'.tail (List.Chain'.tail h2) : _)
    intro k hk
    rcases List.mem_cons.mp hk with rfl | hk
    · exact hhead
    · exact ih htail k hk

/-- C6: in every run of the monitor loop against the controller (a run makes
no call of `forceReconnect`) with a clock that never runs backwards, the
recorded last attempt followed by the start times of the attempts of the run,
in order, are pairwise consecutive at least `RECONNECT_DELAY` apart, an attempt
being a call of `connectToArduino` that passes both guards and records
`lastConnectionAttempt`; and a controller constructed at `t0` is eligible at
every time from `t0` on. -/
theorem reconnect_attempts_spaced (envs : List StepEnv) (c : ArduinoBLEController)
    (s : MonitorState) (hclock : ClockMonotone envs) :
    List.Chain' SpacedApart
        (c.lastConnectionAttempt :: attemptTimes (monitorRun envs c s).events) ∧
      ∀ t0 t : TimePoint, t0 ≤ t →
        (shouldAttemptReconnect t (ArduinoBLEController.construct t0)).1 = true := by
  refine ⟨monitorRun_attempts_chain envs c s (clockMonotone_within envs hclock), ?_⟩
  intro t0 t ht
  have hgap : t - (t0 - RECONNECT_DELAY) ≥ RECONNECT_DELAY := by
    have ht1 : (t0 : Int) ≤ t := ht
    show (RECONNECT_DELAY : Int) ≤ t - (t0 - RECONNECT_DELAY)
    linarith
  simpa [shouldAttemptReconnect, ArduinoBLEController.construct] using hgap

/-- Witness of C6: a controller constructed at time 0, the peripheral out of
range; the loop runs at 0 s, 9 s, 10 s and 12 s and attempts at 0 s, 9 s and
12 s. -/
theorem reconnect_attempts_spaced_witness :
    attemptTimes (monitorRun
        [calmStep .connected 0 (peripheralAbsent 0) false,
         calmStep .connected 9000000000 (peripheralAbsent 9000000000) false,
         calmStep .connected 10000000000 (peripheralAbsent 10000000000) false,
         calmStep .connected 12000000000 (peripheralAbsent 12000000000) false]
        (ArduinoBLEController.construct 0) MonitorState.initial).events =
        [0, 9000000000, 12000000000] ∧
      List.Chain' SpacedApart
        ((ArduinoBLEController.construct 0).lastConnectionAttempt ::
          attemptTimes (monitorRun
            [calmStep .connected 0 (peripheralAbsent 0) false,
             calmStep .connected 9000000000 (peripheralAbsent 9000000000) false,
             calmStep .connected 10000000000 (peripheralAbsent 10000000000) false,
             calmStep .connected 12000000000 (peripheralAbsent 12000000000) false]
            (ArduinoBLEController.construct 0) MonitorState.initial).events) :=
  ⟨by decide,
   (reconnect_attempts_spaced
      [calmStep .connected 0 (peripheralAbsent 0) false,
       calmStep .connected 9000000000 (peripheralAbsent 9000000000) false,
       calmStep .connected 10000000000 (peripheralAbsent 10000000000) false,
       calmStep .connected 12000000000 (peripheralAbsent 12000000000) false]
      (ArduinoBLEController.construct 0) MonitorState.initial
      (by simp [ClockMonotone, clockReadings, calmStep, peripheralAbsent, peripheralPresent])).1⟩

/-! ## Connecting: release of the previous connection -/

theorem cleanupConnection_is_released (e : CleanupEnv) (c : ArduinoBLEController) :
    (cleanupConnection e c).1.released := by
  obtain ⟨hd, hs, hc, h1, h2, _⟩ := cleanupConnection_released e c
  exact ⟨hd, hs, hc, h1, h2⟩

theorem cleanupConnection_unregisters (e : CleanupEnv) (c : ArduinoBLEController)
    (hdevice : c.device.isSome = true) (htoken : c.connectionStatusToken ≠ 0) :
    Event.unregisterStatusHandler c.connectionStatusToken ∈ (cleanupConnection e c).2 := by
  obtain ⟨device, characteristic, service, connected, connecting, last, token⟩ := c
  obtain ⟨u, cs, cd⟩ := e
  simp only at htoken
  cases device with
  | none => simp at hdevice
  | some d => cases u <;> simp [cleanupConnection, htoken]

theorem failAttempt_settled (e : ConnectEnv) (c : ArduinoBLEController) (events : List Event) :
    (failAttempt e c events).settled ∧
      ∃ tail, (failAttempt e c events).events = events ++ tail := by
  obtain ⟨hd, hs, hc, h1, _⟩ := cleanupConnection_is_released e.cleanupOnFailure c
  refine ⟨?_, _, rfl⟩
  exact ⟨hd, hs, hc, h1, rfl⟩

theorem commitSearch_settled (e : ConnectEnv) (c : ArduinoBLEController) (events : List Event)
    (f : FindOutcome × List Event) (hdevice : c.device.isSome = true) :
    (commitSearch e c events f).settled ∧
      ∃ tail, (commitSearch e c events f).events = events ++ tail := by
  obtain ⟨outcome, found⟩ := f
  cases outcome with
  | threw => exact ⟨trivial, _, rfl⟩
  | found service characteristic => exact ⟨⟨rfl, rfl, hdevice, rfl⟩, _, rfl⟩
  | notFound =>
    obtain ⟨h1, tail, h2⟩ := failAttempt_settled e c (events ++ found)
    refine ⟨h1, found ++ tail, ?_⟩
    simpa [commitSearch, List.append_assoc] using h2

theorem resolveCharacteristic_settled (e : ConnectEnv) (c : ArduinoBLEController)
    (events : List Event) (gattResult : Option GattDeviceServicesResult)
    (hdevice : c.device.isSome = true) :
    (resolveCharacteristic e c events gattResult).settled ∧
      ∃ tail, (resolveCharacteristic e c events gattResult).events = events ++ tail := by
  unfold resolveCharacteristic
  split
  · exact failAttempt_settled e c events
  · split
    · exact failAttempt_settled e c events
    · split
      · exact ⟨trivial, _, rfl⟩
      · obtain ⟨h1, tail, h2⟩ := failAttempt_settled e c (events ++ [Event.queryConnectionStatus])
        exact ⟨h1, Event.queryConnectionStatus :: tail, by simpa [List.append_assoc] using h2⟩
      · split
        · exact ⟨trivial, _, rfl⟩
        · rename_i g _ _ _ _ switchUuid _
          obtain ⟨h1, tail, h2⟩ := commitSearch_settled e c
            (events ++ [Event.queryConnectionStatus])
            (findSwitchCharacteristic switchUuid g.services) hdevice
          exact ⟨h1, Event.queryConnectionStatus :: tail, by simpa [List.append_assoc] using h2⟩

theorem scanAndResolve_settled (e : ConnectEnv) (c1 : ArduinoBLEController)
    (events1 : List Event) (hreleased : c1.released) :
    (scanAndResolve e c1 events1).settled ∧
      ∃ tail, (scanAndResolve e c1 events1).events = events1 ++ Event.watcherStart :: tail := by
  obtain ⟨hd, hs, hc, h1, h2⟩ := hreleased
  unfold scanAndResolve
  split
  · exact ⟨trivial, [], rfl⟩
  · split
    · exact ⟨⟨hd, hs, hc, h1, rfl⟩, [Event.watcherStop], rfl⟩
    · split
      · exact ⟨trivial, _, by simp only [TryResult.events, List.append_assoc]; rfl⟩
      · split
        · rename_i device _ hnone
          refine ⟨⟨?_, hs, hc, h1, rfl⟩, _, by simp only [TryResult.events, List.append_assoc]; rfl⟩
          simpa using hnone
        · split
          · exact ⟨trivial, _, by simp only [TryResult.events, List.append_assoc]; rfl⟩
          · rename_i device _ hsome _ value _
            have hdev : device.isSome = true := by
              cases device with
              | none => simp at hsome
              | some d => rfl
            obtain ⟨h3, tail, h4⟩ := resolveCharacteristic_settled e
              { c1 with device := device, connectionStatusToken := value }
              (events1 ++ [Event.watcherStart, Event.watcherStop] ++
                [Event.fromBluetoothAddress _] ++ [Event.registerStatusHandler] ++
                (gattRetryLoop e.exitAtRetry e.gatt 3 0 none).2)
              (gattRetryLoop e.exitAtRetry e.gatt 3 0 none).1 hdev
            refine ⟨h3, ?_⟩
            rw [h4]
            exact ⟨_, by simp only [List.append_assoc]; rfl⟩

theorem catchHandlers_settled (e : ConnectEnv) (r : TryResult) (h : r.settled) :
    ((catchHandlers e r).1 = true → (catchHandlers e r).2.1.established) ∧
      ((catchHandlers e r).1 = false → (catchHandlers e r).2.1.released) ∧
      ∃ tail, (catchHandlers e r).2.2 = r.events ++ tail := by
  cases r with
  | returned result c events =>
    cases result with
    | true => exact ⟨fun _ => h, fun hf => by simp [catchHandlers] at hf, [], by
        simp [catchHandlers, TryResult.events]⟩
    | false => exact ⟨fun ht => by simp [catchHandlers] at ht, fun _ => h, [], by
        simp [catchHandlers, TryResult.events]⟩
  | threw c events =>
    obtain ⟨hd, hs, hc, h1, _⟩ := cleanupConnection_is_released e.cleanupOnFailure c
    refine ⟨fun ht => by simp [catchHandlers] at ht, fun _ => ⟨hd, hs, hc, h1, rfl⟩, _, rfl⟩

theorem connectToArduino_outcome (e : ConnectEnv) (c : ArduinoBLEController)
    (hconnected : c.isConnected = false) (hconnecting : c.isConnecting = false) :
    connectToArduino e c =
        ((catchHandlers e (connectAttempt e (attemptEntry e c))).1,
          (catchHandlers e (connectAttempt e (attemptEntry e c))).2.1,
          Event.attemptStarted e.now ::
            (catchHandlers e (connectAttempt e (attemptEntry e c))).2.2) ∧
      ((connectToArduino e c).1 = true → (connectToArduino e c).2.1.established) ∧
      ((connectToArduino e c).1 = false → (connectToArduino e c).2.1.released) ∧
      ∃ tail, (connectToArduino e c).2.2 =
        Event.attemptStarted e.now ::
          ((cleanupConnection e.cleanupFirst (attemptEntry e c)).2 ++
            Event.watcherStart :: tail) := by
  have heq : connectToArduino e c =
      ((catchHandlers e (connectAttempt e (attemptEntry e c))).1,
        (catchHandlers e (connectAttempt e (attemptEntry e c))).2.1,
        Event.attemptStarted e.now ::
          (catchHandlers e (connectAttempt e (attemptEntry e c))).2.2) := by
    simp [connectToArduino, hconnected, hconnecting, attemptEntry]
  obtain ⟨hset, tail1, hev1⟩ := scanAndResolve_settled e
    (cleanupConnection e.cleanupFirst (attemptEntry e c)).1
    (cleanupConnection e.cleanupFirst (attemptEntry e c)).2
    (cleanupConnection_is_released e.cleanupFirst (attemptEntry e c))
  have hattempt : connectAttempt e (attemptEntry e c) =
      scanAndResolve e (cleanupConnection e.cleanupFirst (attemptEntry e c)).1
        (cleanupConnection e.cleanupFirst (attemptEntry e c)).2 := rfl
  rw [← hattempt] at hset hev1
  obtain ⟨ht, hf, tail2, hev2⟩ := catchHandlers_settled e _ hset
  refine ⟨heq, ?_, ?_, ?_⟩
  · rw [heq]; exact ht
  · rw [heq]; exact hf
  · rw [heq]
    refine ⟨tail1 ++ tail2, ?_⟩
    simp only [hev2, hev1, List.append_assoc, List.cons_append]

/-- C12: for every controller state that is neither connected nor connecting,
whatever handles it still holds, `connectToArduino` first runs
`cleanupConnection`, which leaves the device, service and characteristic
handles null and calls the unregistration of the status handler when a device
and a token are held; the scan and all that follows run on that released
controller, and the release calls come before `watcher.Start()`.  Whenever
the call returns false, the three handles are null and both flags are false,
on every failing path.  What the release calls throw changes none of this. -/
theorem connectToArduino_releases (e : ConnectEnv) (c : ArduinoBLEController)
    (hconnected : c.isConnected = false) (hconnecting : c.isConnecting = false) :
    (cleanupConnection e.cleanupFirst (attemptEntry e c)).1.released ∧
      connectToArduino e c =
        ((catchHandlers e
            (scanAndResolve e (cleanupConnection e.cleanupFirst (attemptEntry e c)).1
              (cleanupConnection e.cleanupFirst (attemptEntry e c)).2)).1,
          (catchHandlers e
            (scanAndResolve e (cleanupConnection e.cleanupFirst (attemptEntry e c)).1
              (cleanupConnection e.cleanupFirst (attemptEntry e c)).2)).2.1,
          Event.attemptStarted e.now ::
            (catchHandlers e
              (scanAndResolve e (cleanupConnection e.cleanupFirst (attemptEntry e c)).1
                (cleanupConnection e.cleanupFirst (attemptEntry e c)).2)).2.2) ∧
      (c.device.isSome = true → c.connectionStatusToken ≠ 0 →
        Event.unregisterStatusHandler c.connectionStatusToken ∈
          (cleanupConnection e.cleanupFirst (attemptEntry e c)).2) ∧
      (∃ tail, (connectToArduino e c).2.2 =
        Event.attemptStarted e.now ::
          ((cleanupConnection e.cleanupFirst (attemptEntry e c)).2 ++
            Event.watcherStart :: tail)) ∧
      ((connectToArduino e c).1 = false → (connectToArduino e c).2.1.released) := by
  obtain ⟨heq, _, hf, hev⟩ := connectToArduino_outcome e c hconnected hconnecting
  refine ⟨cleanupConnection_is_released _ _, heq, ?_, hev, hf⟩
  intro hdevice htoken
  exact cleanupConnection_unregisters e.cleanupFirst (attemptEntry e c) hdevice htoken

/-- Witness of C12: after a failed write the controller still holds its three
handles and the token; the next attempt, with the peripheral out of range and
every release call throwing, releases them before the scan and returns false
with everything null. -/
theorem connectToArduino_releases_witness :
    connectToArduino
        { peripheralAbsent 9000000000 with
          cleanupFirst :=
            { unregisterThrows := true, closeServiceThrows := true, closeDeviceThrows := true } }
        degradedController =
      (false,
        { device := none, switchCharacteristic := none, gattService := none,
          isConnected := false, isConnecting := false, lastConnectionAttempt := 9000000000,
          connectionStatusToken := 5 },
        [.attemptStarted 9000000000, .unregisterStatusHandler 5, .closeService 2,
          .closeDevice 1, .watcherStart, .watcherStop]) ∧
      (connectToArduino
        { peripheralAbsent 9000000000 with
          cleanupFirst :=
            { unregisterThrows := true, closeServiceThrows := true, closeDeviceThrows := true } }
        degradedController).2.1.released :=
  ⟨by decide,
   (connectToArduino_releases
      { peripheralAbsent 9000000000 with
        cleanupFirst :=
          { unregisterThrows := true, closeServiceThrows := true, closeDeviceThrows := true } }
      degradedController rfl rfl).2.2.2.2 (by decide)⟩

/-! ## The invariant of the controller -/

theorem connectToArduino_keeps_handlesPresent (e : ConnectEnv) (c : ArduinoBLEController)
    (h : c.handlesPresent) : (connectToArduino e c).2.1.handlesPresent := by
  cases hconnected : c.isConnected with
  | true => simpa [connectToArduino, hconnected] using h
  | false =>
    cases hconnecting : c.isConnecting with
    | true => simpa [connectToArduino, hconnected, hconnecting] using h
    | false =>
      obtain ⟨_, ht, hf, _⟩ := connectToArduino_outcome e c hconnected hconnecting
      intro hc
      cases hres : (connectToArduino e c).1 with
      | true => exact ⟨(ht hres).2.2.1, (ht hres).2.2.2⟩
      | false =>
        have := (hf hres).2.2.2.1
        rw [this] at hc
        cases hc

theorem connectToArduino_result (e : ConnectEnv) (c : ArduinoBLEController)
    (hconnecting : c.isConnecting = false) :
    (connectToArduino e c).2.1.isConnecting = false ∧
      ((connectToArduino e c).1 = true ↔ (connectToArduino e c).2.1.isConnected = true) := by
  cases hconnected : c.isConnected with
  | true =>
    refine ⟨?_, ?_⟩
    · simpa [connectToArduino, hconnected] using hconnecting
    · simp [connectToArduino, hconnected]
  | false =>
    obtain ⟨_, ht, hf, _⟩ := connectToArduino_outcome e c hconnected hconnecting
    cases hres : (connectToArduino e c).1 with
    | true =>
      obtain ⟨h1, h2, _, _⟩ := ht hres
      exact ⟨h2, ⟨fun _ => h1, fun _ => rfl⟩⟩
    | false =>
      obtain ⟨_, _, _, h1, h2⟩ := hf hres
      refine ⟨h2, ⟨fun hc => (by cases hc), fun hc => ?_⟩⟩
      rw [h1] at hc
      cases hc

theorem setLEDState_keeps_invariant (e : WriteEnv) (state : Bool) (c : ArduinoBLEController)
    (h : c.handlesPresent) :
    (setLEDState e state c).2.1.handlesPresent ∧
      (setLEDState e state c).2.1.isConnecting = c.isConnecting := by
  obtain ⟨device, characteristic, service, connected, connecting, last, token⟩ := c
  obtain ⟨q, bufferThrows, w⟩ := e
  cases connected <;> cases characteristic <;> cases device <;> cases q <;>
    cases bufferThrows <;> cases w <;>
    simp_all [setLEDState, ArduinoBLEController.handlesPresent]

theorem getConnectionStatus_keeps_invariant (q : StatusOutcome) (c : ArduinoBLEController)
    (h : c.handlesPresent) :
    (getConnectionStatus q c).2.1.handlesPresent ∧
      (getConnectionStatus q c).2.1.isConnecting = c.isConnecting := by
  obtain ⟨device, characteristic, service, connected, connecting, last, token⟩ := c
  cases connected <;> cases device <;> cases q <;>
    simp_all [getConnectionStatus, ArduinoBLEController.handlesPresent]

theorem onConnectionStatusChanged_keeps_invariant (q : StatusOutcome)
    (c : ArduinoBLEController) (h : c.handlesPresent) :
    (onConnectionStatusChanged q c).handlesPresent ∧
      (onConnectionStatusChanged q c).isConnecting = c.isConnecting := by
  cases q <;> simp_all [onConnectionStatusChanged, ArduinoBLEController.handlesPresent]

theorem released_invariant (c : ArduinoBLEController) (h : c.released) :
    c.handlesPresent ∧ c.isConnecting = false := by
  refine ⟨fun hc => ?_, h.2.2.2.2⟩
  rw [h.2.2.2.1] at hc
  cases hc

theorem forceReconnect_released (e : CleanupEnv) (now : TimePoint) (c : ArduinoBLEController) :
    (forceReconnect e now c).1.released :=
  cleanupConnection_is_released e c

theorem reachable_invariant (c : ArduinoBLEController) (h : Reachable c) :
    c.handlesPresent ∧ c.isConnecting = false := by
  induction h with
  | constructed now => exact ⟨fun hc => (by cases hc), rfl⟩
  | afterEligibility now c _ ih => exact ih
  | afterStatus q c _ ih =>
    obtain ⟨h1, h2⟩ := getConnectionStatus_keeps_invariant q c ih.1
    exact ⟨h1, h2.trans ih.2⟩
  | afterNotification q c _ ih =>
    obtain ⟨h1, h2⟩ := onConnectionStatusChanged_keeps_invariant q c ih.1
    exact ⟨h1, h2.trans ih.2⟩
  | afterCleanup e c _ _ => exact released_invariant _ (cleanupConnection_is_released e c)
  | afterDisconnect e c _ _ => exact released_invariant _ (cleanupConnection_is_released e c)
  | afterForceReconnect e now c _ _ =>
    exact released_invariant _ (forceReconnect_released e now c)
  | afterWrite e state c _ ih =>
    obtain ⟨h1, h2⟩ := setLEDState_keeps_invariant e state c ih.1
    exact ⟨h1, h2.trans ih.2⟩
  | afterConnect e c _ ih =>
    exact ⟨connectToArduino_keeps_handlesPresent e c ih.1, (connectToArduino_result e c ih.2).1⟩

/-! ## Connecting: the result and the flags -/

/-- C14: every state the controller can be in has `isConnecting` false and
satisfies the invariant "`isConnected` implies that the device and
characteristic handles are present".  For every controller state with
`isConnecting` false that satisfies the invariant and every behaviour of the
transport, exceptions included, `isConnecting` is false when
`connectToArduino` returns, it returns true exactly when `isConnected` is true
on return, and in that case the device and characteristic handles are present.
The invariant holds of a constructed controller and is kept by
`connectToArduino`, `setLEDState`, `getConnectionStatus`, `disconnect`,
`forceReconnect` and the status handler. -/
theorem connectToArduino_agrees_with_phase :
    (∀ c : ArduinoBLEController, Reachable c → c.handlesPresent ∧ c.isConnecting = false) ∧
      (∀ (e : ConnectEnv) (c : ArduinoBLEController), c.isConnecting = false →
        c.handlesPresent →
        (connectToArduino e c).2.1.isConnecting = false ∧
          ((connectToArduino e c).1 = true ↔ (connectToArduino e c).2.1.isConnected = true) ∧
          ((connectToArduino e c).1 = true →
            (connectToArduino e c).2.1.device.isSome = true ∧
              (connectToArduino e c).2.1.switchCharacteristic.isSome = true)) ∧
      (∀ now : TimePoint, (ArduinoBLEController.construct now).handlesPresent) ∧
      (∀ (e : ConnectEnv) (c : ArduinoBLEController), c.handlesPresent →
        (connectToArduino e c).2.1.handlesPresent) ∧
      (∀ (e : WriteEnv) (state : Bool) (c : ArduinoBLEController), c.handlesPresent →
        (setLEDState e state c).2.1.handlesPresent) ∧
      (∀ (q : StatusOutcome) (c : ArduinoBLEController), c.handlesPresent →
        (getConnectionStatus q c).2.1.handlesPresent) ∧
      (∀ (e : CleanupEnv) (c : ArduinoBLEController), c.handlesPresent →
        (disconnect e c).1.handlesPresent) ∧
      (∀ (e : CleanupEnv) (now : TimePoint) (c : ArduinoBLEController), c.handlesPresent →
        (forceReconnect e now c).1.handlesPresent) ∧
      (∀ (q : StatusOutcome) (c : ArduinoBLEController), c.handlesPresent →
        (onConnectionStatusChanged q c).handlesPresent) := by
  refine ⟨reachable_invariant, ?_, ?_, connectToArduino_keeps_handlesPresent, ?_, ?_, ?_, ?_, ?_⟩
  · intro e c hconnecting hinv
    obtain ⟨h1, h2⟩ := connectToArduino_result e c hconnecting
    refine ⟨h1, h2, fun hres => ?_⟩
    exact connectToArduino_keeps_handlesPresent e c hinv (h2.mp hres)
  · intro now hc
    cases hc
  · intro e state c h
    exact (setLEDState_keeps_invariant e state c h).1
  · intro q c h
    exact (getConnectionStatus_keeps_invariant q c h).1
  · intro e c _
    exact (released_invariant _ (cleanupConnection_is_released e c)).1
  · intro e now c _
    exact (released_invariant _ (forceReconnect_released e now c)).1
  · intro q c h
    exact (onConnectionStatusChanged_keeps_invariant q c h).1

/-- Witness of C14: a constructed controller, the peripheral in range: the
attempt returns true, `isConnecting` is false and both handles are present; a
second call on the connected controller returns true with the handles still
present. -/
theorem connectToArduino_agrees_with_phase_witness :
    (connectToArduino (peripheralPresent 0) (ArduinoBLEController.construct 0)).1 = true ∧
      (connectToArduino (peripheralPresent 0)
        (ArduinoBLEController.construct 0)).2.1.isConnecting = false ∧
      ((connectToArduino (peripheralPresent 0)
          (ArduinoBLEController.construct 0)).2.1.device.isSome = true ∧
        (connectToArduino (peripheralPresent 0)
          (ArduinoBLEController.construct 0)).2.1.switchCharacteristic.isSome = true) ∧
      ((connectToArduino (peripheralAbsent 1) connectedController).1 = true ∧
        (connectToArduino (peripheralAbsent 1) connectedController).2.1.device.isSome = true ∧
          (connectToArduino (peripheralAbsent 1)
            connectedController).2.1.switchCharacteristic.isSome = true) :=
  ⟨by decide,
   (connectToArduino_agrees_with_phase.2.1 (peripheralPresent 0)
      (ArduinoBLEController.construct 0) rfl (by decide)).1,
   (connectToArduino_agrees_with_phase.2.1 (peripheralPresent 0)
      (ArduinoBLEController.construct 0) rfl (by decide)).2.2 (by decide),
   by decide,
   (connectToArduino_agrees_with_phase.2.1 (peripheralAbsent 1) connectedController rfl
      (by decide)).2.2 (by decide)⟩

/-! ## Writing the switch: the contract of `setLEDState` -/

/-- C11: every state the controller can be in satisfies the invariant
"`isConnected` implies that the device and characteristic handles are
present".  For every controller state that satisfies it, every boolean
`state` and every behaviour of the transport, `setLEDState` writes at most
once, the byte 1 for true and 0 for false, and only if `isConnected` is true,
the characteristic and device handles are present and the device reports
connected; it returns true exactly when that write was issued and its status
is `Success`.  If `isConnected` held on entry and the device reports not
connected, no write is issued, `isConnected` becomes false and the result is
false; a write status other than `Success`, or an exception from the status
query, the buffer or the write, also leaves `isConnected` false and the result
false, as does every call that returns false. -/
theorem setLEDState_contract :
    (∀ c : ArduinoBLEController, Reachable c → c.handlesPresent) ∧
      ∀ (e : WriteEnv) (state : Bool) (c : ArduinoBLEController), c.handlesPresent →
        (bytesWritten (setLEDState e state c).2.2 = [] ∨
            bytesWritten (setLEDState e state c).2.2 = [ledByte state]) ∧
          (bytesWritten (setLEDState e state c).2.2 ≠ [] →
            c.isConnected = true ∧ c.switchCharacteristic.isSome = true ∧
              c.device.isSome = true ∧ e.status = .connected) ∧
          ((setLEDState e state c).1 = true ↔
            bytesWritten (setLEDState e state c).2.2 = [ledByte state] ∧ e.write = .success) ∧
          (c.isConnected = true → e.status = .notConnected →
            bytesWritten (setLEDState e state c).2.2 = [] ∧
              (setLEDState e state c).2.1.isConnected = false ∧
              (setLEDState e state c).1 = false) ∧
          (e.write ≠ .success ∨ e.status = .throws ∨ e.bufferThrows = true →
            (setLEDState e state c).2.1.isConnected = false ∧
              (setLEDState e state c).1 = false) ∧
          ((setLEDState e state c).1 = false →
            (setLEDState e state c).2.1.isConnected = false) := by
  refine ⟨fun c hc => (reachable_invariant c hc).1, ?_⟩
  intro e state c h
  obtain ⟨device, characteristic, service, connected, connecting, last, token⟩ := c
  obtain ⟨q, bufferThrows, w⟩ := e
  cases connected <;> cases characteristic <;> cases device <;> cases q <;>
    cases bufferThrows <;> cases w <;>
    simp_all [setLEDState, bytesWritten, ledByte, ArduinoBLEController.handlesPresent]

/-- Witness of C11: the connected controller, the device reporting
`Disconnected`: no write, `isConnected` false, result false. -/
theorem setLEDState_contract_witness :
    connectedController.handlesPresent ∧
      bytesWritten (setLEDState { status := .notConnected, bufferThrows := false, write := .success }
        true connectedController).2.2 = [] ∧
      (setLEDState { status := .notConnected, bufferThrows := false, write := .success }
        true connectedController).2.1.isConnected = false ∧
      (setLEDState { status := .notConnected, bufferThrows := false, write := .success }
        true connectedController).1 = false :=
  ⟨by decide,
   (setLEDState_contract.2 { status := .notConnected, bufferThrows := false, write := .success }
    true connectedController (by decide)).2.2.2.1 rfl rfl⟩

/-! ## Connecting: the retry loop -/

theorem enumerationCalls_gattRetryLoop_le (exitAtRetry : Nat → Bool) (gatt : Nat → GattOutcome)
    (retries call : Nat) (gattResult : Option GattDeviceServicesResult) :
    enumerationCalls (gattRetryLoop exitAtRetry gatt retries call gattResult).2 ≤ retries := by
  induction retries generalizing call gattResult with
  | zero => simp [gattRetryLoop, enumerationCalls]
  | succ n ih =>
    unfold gattRetryLoop
    split
    · simp [enumerationCalls]
    · split
      · split
        · simp [enumerationCalls]
        · rename_i g _ _
          have h := ih (call + 1) (some g)
          simp only [enumerationCalls] at h ⊢
          simpa using h
      · have h := ih (call + 1) gattResult
        simp only [enumerationCalls] at h ⊢
        simpa using h

theorem gattRetryLoop_three (gatt : Nat → GattOutcome) :
    enumerationCalls (gattRetryLoop noShutdown gatt 3 0 none).2 =
        (if (gatt 0).succeeded then 1 else if (gatt 1).succeeded then 2 else 3) ∧
      resolutionFailed (gattRetryLoop noShutdown gatt 3 0 none).1 =
        (!(gatt 0).succeeded && !(gatt 1).succeeded && !(gatt 2).succeeded) := by
  simp only [gattRetryLoop, noShutdown, enumerationCalls]
  rcases h0 : gatt 0 with ⟨⟨s0, l0⟩⟩ | _ <;> rcases h1 : gatt 1 with ⟨⟨s1, l1⟩⟩ | _ <;>
    rcases h2 : gatt 2 with ⟨⟨s2, l2⟩⟩ | _ <;>
    simp [GattOutcome.succeeded, resolutionFailed] <;>
    (try cases s0) <;> (try cases s1) <;> (try cases s2) <;> simp

theorem gattRetryLoop_first_success (gatt : Nat → GattOutcome) (j : Nat) (hj : j < 3)
    (hsuccess : (gatt j).succeeded = true)
    (hbefore : ∀ i, i < j → (gatt i).succeeded = false) :
    ∃ g, gatt j = .result g ∧ g.statusSuccess = true ∧
      (gattRetryLoop noShutdown gatt 3 0 none).1 = some g := by
  have h0 : 0 < j → (gatt 0).succeeded = false := fun h => hbefore 0 h
  have h1 : 1 < j → (gatt 1).succeeded = false := fun h => hbefore 1 h
  simp only [gattRetryLoop, noShutdown]
  interval_cases j
  · rcases hg : gatt 0 with ⟨⟨s0, l0⟩⟩ | _
    · rw [hg] at hsuccess
      simp only [GattOutcome.succeeded] at hsuccess
      subst hsuccess
      exact ⟨_, rfl, rfl, by simp⟩
    · rw [hg] at hsuccess
      simp [GattOutcome.succeeded] at hsuccess
  · have h0 := h0 (by decide)
    rcases hg0 : gatt 0 with ⟨⟨s0, l0⟩⟩ | _ <;> rcases hg : gatt 1 with ⟨⟨s1, l1⟩⟩ | _ <;>
      rw [hg] at hsuccess <;> rw [hg0] at h0 <;>
      simp only [GattOutcome.succeeded] at hsuccess h0 <;>
      first
        | (subst hsuccess; subst h0; exact ⟨_, rfl, rfl, by simp⟩)
        | (subst hsuccess; exact ⟨_, rfl, rfl, by simp⟩)
        | (exact absurd hsuccess (by decide))
  · have h0 := h0 (by decide)
    have h1 := h1 (by decide)
    rcases hg0 : gatt 0 with ⟨⟨s0, l0⟩⟩ | _ <;> rcases hg1 : gatt 1 with ⟨⟨s1, l1⟩⟩ | _ <;>
      rcases hg : gatt 2 with ⟨⟨s2, l2⟩⟩ | _ <;>
      rw [hg] at hsuccess <;> rw [hg0] at h0 <;> rw [hg1] at h1 <;>
      simp only [GattOutcome.succeeded] at hsuccess h0 h1 <;>
      first
        | (subst hsuccess; subst h0; subst h1; exact ⟨_, rfl, rfl, by simp⟩)
        | (subst hsuccess; subst h0; exact ⟨_, rfl, rfl, by simp⟩)
        | (subst hsuccess; subst h1; exact ⟨_, rfl, rfl, by simp⟩)
        | (subst hsuccess; exact ⟨_, rfl, rfl, by simp⟩)
        | (exact absurd hsuccess (by decide))

theorem resolveCharacteristic_failed (e : ConnectEnv) (c : ArduinoBLEController)
    (events : List Event) (gattResult : Option GattDeviceServicesResult)
    (h : resolutionFailed gattResult = true) :
    resolveCharacteristic e c events gattResult = failAttempt e c events := by
  cases gattResult with
  | none => rfl
  | some g =>
    simp only [resolutionFailed] at h
    simp [resolveCharacteristic, h]

theorem resolveCharacteristic_proceeds (e : ConnectEnv) (c : ArduinoBLEController)
    (events : List Event) (gattResult : Option GattDeviceServicesResult)
    (h : resolutionFailed gattResult = false) :
    ∃ tail, (resolveCharacteristic e c events gattResult).events =
      events ++ Event.queryConnectionStatus :: tail := by
  cases gattResult with
  | none => simp [resolutionFailed] at h
  | some g =>
    simp only [resolutionFailed, Bool.not_eq_false'] at h
    simp only [resolveCharacteristic, h, Bool.not_true, Bool.false_eq_true, if_false]
    split
    · exact ⟨[], rfl⟩
    · exact ⟨_, by simp only [failAttempt, TryResult.events, List.append_assoc]; rfl⟩
    · split
      · exact ⟨[], rfl⟩
      · rename_i switchUuid _
        rcases hf : findSwitchCharacteristic switchUuid g.services with ⟨outcome, found⟩
        cases outcome <;>
          exact ⟨_, by
            simp only [commitSearch, failAttempt, TryResult.events, List.append_assoc]; rfl⟩

theorem enumerationCalls_cleanupConnection (e : CleanupEnv) (c : ArduinoBLEController) :
    enumerationCalls (cleanupConnection e c).2 = 0 := by
  obtain ⟨device, characteristic, service, connected, connecting, last, token⟩ := c
  obtain ⟨u, cs, cd⟩ := e
  cases device <;> cases characteristic <;> cases service <;> cases u <;>
    by_cases ht : token = 0 <;> simp [cleanupConnection, ht, enumerationCalls]

theorem connectToArduino_resolution_fails (e : ConnectEnv) (c : ArduinoBLEController)
    (address device : Nat) (token : Int)
    (hconnected : c.isConnected = false) (hconnecting : c.isConnecting = false)
    (hscan : e.scan = .finished true false address)
    (hdevice : e.deviceTask = .result (some device))
    (hregister : e.registerHandler = .token token)
    (hexit : e.exitAtRetry = noShutdown)
    (hfail : ∀ j, j < 3 → (e.gatt j).succeeded = false) :
    (connectToArduino e c).1 = false ∧ (connectToArduino e c).2.1.released ∧
      enumerationCalls (connectToArduino e c).2.2 = 3 := by
  obtain ⟨heq, _, hf, _⟩ := connectToArduino_outcome e c hconnected hconnecting
  obtain ⟨hcalls, hfailed⟩ := gattRetryLoop_three e.gatt
  rw [hfail 0 (by decide), hfail 1 (by decide)] at hcalls
  rw [hfail 0 (by decide), hfail 1 (by decide), hfail 2 (by decide)] at hfailed
  have hattempt : connectAttempt e (attemptEntry e c) =
      failAttempt e
        { (cleanupConnection e.cleanupFirst (attemptEntry e c)).1 with
          device := some device, connectionStatusToken := token }
        ((cleanupConnection e.cleanupFirst (attemptEntry e c)).2 ++
          [Event.watcherStart, Event.watcherStop] ++ [Event.fromBluetoothAddress address] ++
          [Event.registerStatusHandler] ++ (gattRetryLoop noShutdown e.gatt 3 0 none).2) := by
    simp only [connectAttempt, scanAndResolve, hscan, hdevice, hregister, hexit]
    exact resolveCharacteristic_failed _ _ _ _ hfailed
  have hres : (connectToArduino e c).1 = false := by
    rw [heq, hattempt]
    rfl
  refine ⟨hres, hf hres, ?_⟩
  rw [heq, hattempt]
  have h1 := enumerationCalls_cleanupConnection e.cleanupFirst (attemptEntry e c)
  have h2 := enumerationCalls_cleanupConnection e.cleanupOnFailure
    { (cleanupConnection e.cleanupFirst (attemptEntry e c)).1 with
      device := some device, connectionStatusToken := token }
  simp only [enumerationCalls] at h1 h2 hcalls ⊢
  simp [failAttempt, catchHandlers, List.count_append, h1, h2, hcalls]

theorem enumerationCalls_append (l1 l2 : List Event) :
    enumerationCalls (l1 ++ l2) = enumerationCalls l1 + enumerationCalls l2 := by
  simp [enumerationCalls, List.count_append]

theorem enumerationCalls_findSwitchCharacteristic (switchUuid : Guid) (services : List Service) :
    enumerationCalls (findSwitchCharacteristic switchUuid services).2 = 0 := by
  induction services with
  | nil => rfl
  | cons service rest ih =>
    unfold findSwitchCharacteristic
    split
    · simp [enumerationCalls]
    · simpa [enumerationCalls] using ih
    · split
      · simp [enumerationCalls]
      · simpa [enumerationCalls] using ih

theorem failAttempt_calls (e : ConnectEnv) (c : ArduinoBLEController) (events : List Event) :
    enumerationCalls (failAttempt e c events).events = enumerationCalls events := by
  simp [failAttempt, TryResult.events, enumerationCalls_append,
    enumerationCalls_cleanupConnection]

theorem commitSearch_calls (e : ConnectEnv) (c : ArduinoBLEController) (events : List Event)
    (f : FindOutcome × List Event) (hf : enumerationCalls f.2 = 0) :
    enumerationCalls (commitSearch e c events f).events = enumerationCalls events := by
  obtain ⟨outcome, found⟩ := f
  simp only at hf
  cases outcome with
  | threw => simp [commitSearch, TryResult.events, enumerationCalls_append, hf]
  | found service characteristic =>
    simp [commitSearch, TryResult.events, enumerationCalls_append, hf]
  | notFound =>
    have h := failAttempt_calls e c (events ++ found)
    simpa [commitSearch, enumerationCalls_append, hf] using h

theorem resolveCharacteristic_calls (e : ConnectEnv) (c : ArduinoBLEController)
    (events : List Event) (gattResult : Option GattDeviceServicesResult) :
    enumerationCalls (resolveCharacteristic e c events gattResult).events =
      enumerationCalls events := by
  have hq : enumerationCalls (events ++ [Event.queryConnectionStatus]) =
      enumerationCalls events := by
    simp [enumerationCalls]
  unfold resolveCharacteristic
  split
  · exact failAttempt_calls e c events
  · split
    · exact failAttempt_calls e c events
    · split
      · exact hq
      · rw [failAttempt_calls, hq]
      · split
        · exact hq
        · rename_i g _ _ _ _ switchUuid _
          rw [commitSearch_calls e c _ _
            (enumerationCalls_findSwitchCharacteristic switchUuid g.services), hq]

theorem scanAndResolve_calls (e : ConnectEnv) (c1 : ArduinoBLEController)
    (events1 : List Event) :
    enumerationCalls (scanAndResolve e c1 events1).events ≤ enumerationCalls events1 + 3 := by
  have hloop := enumerationCalls_gattRetryLoop_le e.exitAtRetry e.gatt 3 0 none
  unfold scanAndResolve
  split
  · simp [TryResult.events, enumerationCalls]
  · split
    · simp [TryResult.events, enumerationCalls]
    · split
      · simp [TryResult.events, enumerationCalls]
      · split
        · simp [TryResult.events, enumerationCalls]
        · split
          · simp [TryResult.events, enumerationCalls]
          · rw [resolveCharacteristic_calls]
            simp only [enumerationCalls_append]
            simp only [enumerationCalls] at hloop ⊢
            simp
            exact hloop

theorem connectToArduino_calls_le (e : ConnectEnv) (c : ArduinoBLEController) :
    enumerationCalls (connectToArduino e c).2.2 ≤ 3 := by
  cases hconnected : c.isConnected with
  | true => simp [connectToArduino, hconnected, enumerationCalls]
  | false =>
    cases hconnecting : c.isConnecting with
    | true => simp [connectToArduino, hconnected, hconnecting, enumerationCalls]
    | false =>
      obtain ⟨heq, _, _, _⟩ := connectToArduino_outcome e c hconnected hconnecting
      rw [heq]
      have h1 := scanAndResolve_calls e (cleanupConnection e.cleanupFirst (attemptEntry e c)).1
        (cleanupConnection e.cleanupFirst (attemptEntry e c)).2
      rw [enumerationCalls_cleanupConnection] at h1
      have hattempt : connectAttempt e (attemptEntry e c) =
          scanAndResolve e (cleanupConnection e.cleanupFirst (attemptEntry e c)).1
            (cleanupConnection e.cleanupFirst (attemptEntry e c)).2 := rfl
      rw [← hattempt] at h1
      have h2 : enumerationCalls (catchHandlers e (connectAttempt e (attemptEntry e c))).2.2 =
          enumerationCalls (connectAttempt e (attemptEntry e c)).events := by
        cases connectAttempt e (attemptEntry e c) with
        | returned result c2 events => rfl
        | threw c2 events =>
          simp [catchHandlers, TryResult.events, enumerationCalls_append,
            enumerationCalls_cleanupConnection]
      have h3 : enumerationCalls
          (Event.attemptStarted e.now ::
            (catchHandlers e (connectAttempt e (attemptEntry e c))).2.2) =
          enumerationCalls (catchHandlers e (connectAttempt e (attemptEntry e c))).2.2 := by
        simp [enumerationCalls]
      show enumerationCalls
        (Event.attemptStarted e.now ::
          (catchHandlers e (connectAttempt e (attemptEntry e c))).2.2) ≤ 3
      rw [h3, h2]
      omega

theorem parseUUID_switch : parseUUID SWITCH_CHARACTERISTIC_UUID = some switchGuid := by
  decide

theorem statusQuery_not_mem_cleanupConnection (e : CleanupEnv) (c : ArduinoBLEController) :
    Event.queryConnectionStatus ∉ (cleanupConnection e c).2 := by
  obtain ⟨device, characteristic, service, connected, connecting, last, token⟩ := c
  obtain ⟨u, cs, cd⟩ := e
  cases device <;> cases characteristic <;> cases service <;> cases u <;>
    by_cases ht : token = 0 <;> simp [cleanupConnection, ht]

theorem gattRetryLoop_events (exitAtRetry : Nat → Bool) (gatt : Nat → GattOutcome)
    (retries call : Nat) (gattResult : Option GattDeviceServicesResult) :
    ∀ ev ∈ (gattRetryLoop exitAtRetry gatt retries call gattResult).2,
      ev = Event.getGattServices := by
  induction retries generalizing call gattResult with
  | zero => simp [gattRetryLoop]
  | succ n ih =>
    unfold gattRetryLoop
    split
    · simp
    · split
      · split
        · simp
        · rename_i g _ _
          intro ev hev
          simp only [List.mem_cons] at hev
          rcases hev with rfl | hev
          · rfl
          · exact ih (call + 1) (some g) ev hev
      · intro ev hev
        simp only [List.mem_cons] at hev
        rcases hev with rfl | hev
        · rfl
        · exact ih (call + 1) gattResult ev hev

theorem statusQuery_not_mem_before_check (e : ConnectEnv) (c : ArduinoBLEController)
    (address : Nat) :
    Event.queryConnectionStatus ∉
      eventsBeforeResolution e c address ++ (gattRetryLoop e.exitAtRetry e.gatt 3 0 none).2 := by
  intro hmem
  simp only [eventsBeforeResolution, List.mem_append, List.mem_cons, List.mem_singleton,
    List.not_mem_nil, or_false] at hmem
  rcases hmem with (((h | h) | h) | h) | h
  · exact statusQuery_not_mem_cleanupConnection _ _ h
  · rcases h with h | h <;> cases h
  · cases h
  · cases h
  · have := gattRetryLoop_events _ _ _ _ _ _ h
    cases this

theorem connectToArduino_through_loop (e : ConnectEnv) (c : ArduinoBLEController)
    (address device : Nat) (token : Int)
    (hconnected : c.isConnected = false) (hconnecting : c.isConnecting = false)
    (hscan : e.scan = .finished true false address)
    (hdevice : e.deviceTask = .result (some device))
    (hregister : e.registerHandler = .token token) :
    connectToArduino e c =
      ((catchHandlers e
          (resolveCharacteristic e (resolutionEntry e c device token)
            (eventsBeforeResolution e c address ++
              (gattRetryLoop e.exitAtRetry e.gatt 3 0 none).2)
            (gattRetryLoop e.exitAtRetry e.gatt 3 0 none).1)).1,
        (catchHandlers e
          (resolveCharacteristic e (resolutionEntry e c device token)
            (eventsBeforeResolution e c address ++
              (gattRetryLoop e.exitAtRetry e.gatt 3 0 none).2)
            (gattRetryLoop e.exitAtRetry e.gatt 3 0 none).1)).2.1,
        Event.attemptStarted e.now ::
          (catchHandlers e
            (resolveCharacteristic e (resolutionEntry e c device token)
              (eventsBeforeResolution e c address ++
                (gattRetryLoop e.exitAtRetry e.gatt 3 0 none).2)
              (gattRetryLoop e.exitAtRetry e.gatt 3 0 none).1)).2.2) := by
  obtain ⟨heq, _, _, _⟩ := connectToArduino_outcome e c hconnected hconnecting
  have hattempt : connectAttempt e (attemptEntry e c) =
      resolveCharacteristic e (resolutionEntry e c device token)
        (eventsBeforeResolution e c address ++ (gattRetryLoop e.exitAtRetry e.gatt 3 0 none).2)
        (gattRetryLoop e.exitAtRetry e.gatt 3 0 none).1 := by
    simp only [connectAttempt, scanAndResolve, hscan, hdevice, hregister, resolutionEntry,
      eventsBeforeResolution]
    rfl
  rw [heq, hattempt]

theorem catchHandlers_calls (e : ConnectEnv) (r : TryResult) :
    enumerationCalls (catchHandlers e r).2.2 = enumerationCalls r.events := by
  cases r with
  | returned result c events => rfl
  | threw c events =>
    simp [catchHandlers, TryResult.events, enumerationCalls_append,
      enumerationCalls_cleanupConnection]

theorem connectToArduino_calls_through_loop (e : ConnectEnv) (c : ArduinoBLEController)
    (address device : Nat) (token : Int)
    (hconnected : c.isConnected = false) (hconnecting : c.isConnecting = false)
    (hscan : e.scan = .finished true false address)
    (hdevice : e.deviceTask = .result (some device))
    (hregister : e.registerHandler = .token token) :
    enumerationCalls (connectToArduino e c).2.2 =
      enumerationCalls (gattRetryLoop e.exitAtRetry e.gatt 3 0 none).2 := by
  rw [connectToArduino_through_loop e c address device token hconnected hconnecting hscan
    hdevice hregister]
  have h0 : enumerationCalls (eventsBeforeResolution e c address) = 0 := by
    have h1 := enumerationCalls_cleanupConnection e.cleanupFirst (attemptEntry e c)
    simp only [enumerationCalls] at h1 ⊢
    simp [eventsBeforeResolution, List.count_append, h1]
  have h3 : ∀ l : List Event,
      enumerationCalls (Event.attemptStarted e.now :: l) = enumerationCalls l := by
    intro l
    simp [enumerationCalls]
  show enumerationCalls (Event.attemptStarted e.now :: _) = _
  rw [h3, catchHandlers_calls, resolveCharacteristic_calls, enumerationCalls_append, h0,
    Nat.zero_add]

theorem connectToArduino_status_check (e : ConnectEnv) (c : ArduinoBLEController)
    (address device : Nat) (token : Int)
    (hconnected : c.isConnected = false) (hconnecting : c.isConnecting = false)
    (hscan : e.scan = .finished true false address)
    (hdevice : e.deviceTask = .result (some device))
    (hregister : e.registerHandler = .token token) :
    (Event.queryConnectionStatus ∈ (connectToArduino e c).2.2 ↔
      resolutionFailed (gattRetryLoop e.exitAtRetry e.gatt 3 0 none).1 = false) := by
  rw [connectToArduino_through_loop e c address device token hconnected hconnecting hscan
    hdevice hregister]
  have hbefore := statusQuery_not_mem_before_check e c address
  cases hf : resolutionFailed (gattRetryLoop e.exitAtRetry e.gatt 3 0 none).1 with
  | true =>
    rw [resolveCharacteristic_failed _ _ _ _ hf]
    have hclean := statusQuery_not_mem_cleanupConnection e.cleanupOnFailure
      (resolutionEntry e c device token)
    constructor
    · intro hmem
      exfalso
      simp only [failAttempt, catchHandlers, List.mem_cons, List.mem_append] at hmem
      rcases hmem with h | h | h
      · cases h
      · exact hbefore (List.mem_append.mpr h)
      · exact hclean h
    · intro h
      cases h
  | false =>
    obtain ⟨tail, htail⟩ := resolveCharacteristic_proceeds e (resolutionEntry e c device token)
      (eventsBeforeResolution e c address ++ (gattRetryLoop e.exitAtRetry e.gatt 3 0 none).2)
      _ hf
    obtain ⟨tail2, htail2⟩ : ∃ tail2,
        (catchHandlers e
          (resolveCharacteristic e (resolutionEntry e c device token)
            (eventsBeforeResolution e c address ++
              (gattRetryLoop e.exitAtRetry e.gatt 3 0 none).2)
            (gattRetryLoop e.exitAtRetry e.gatt 3 0 none).1)).2.2 =
          (resolveCharacteristic e (resolutionEntry e c device token)
            (eventsBeforeResolution e c address ++
              (gattRetryLoop e.exitAtRetry e.gatt 3 0 none).2)
            (gattRetryLoop e.exitAtRetry e.gatt 3 0 none).1).events ++ tail2 := by
      cases resolveCharacteristic e (resolutionEntry e c device token)
          (eventsBeforeResolution e c address ++
            (gattRetryLoop e.exitAtRetry e.gatt 3 0 none).2)
          (gattRetryLoop e.exitAtRetry e.gatt 3 0 none).1 with
      | returned result c2 events => exact ⟨[], by simp [catchHandlers, TryResult.events]⟩
      | threw c2 events => exact ⟨_, rfl⟩
    constructor
    · intro _
      rfl
    · intro _
      show Event.queryConnectionStatus ∈ Event.attemptStarted e.now :: _
      rw [htail2, htail]
      simp

theorem resolveCharacteristic_success (e : ConnectEnv) (c : ArduinoBLEController)
    (events : List Event) (g : GattDeviceServicesResult) (hg : g.statusSuccess = true) :
    ((catchHandlers e (resolveCharacteristic e c events (some g))).1 = true ↔
        e.status = .connected ∧
          ∃ s ch, (findSwitchCharacteristic switchGuid g.services).1 = .found s ch) ∧
      ∀ s ch, e.status = .connected →
        (findSwitchCharacteristic switchGuid g.services).1 = .found s ch →
        (catchHandlers e (resolveCharacteristic e c events (some g))).2.1 =
          { c with
            switchCharacteristic := some ch
            gattService := some s
            isConnected := true
            isConnecting := false } := by
  simp only [resolveCharacteristic, hg, Bool.not_true, Bool.false_eq_true, if_false,
    parseUUID_switch]
  cases hstatus : e.status with
  | throws => simp [catchHandlers]
  | notConnected => simp [catchHandlers, failAttempt]
  | connected =>
    rcases hfind : findSwitchCharacteristic switchGuid g.services with ⟨outcome, found⟩
    cases outcome <;> simp [commitSearch, catchHandlers, failAttempt]

theorem connectToArduino_retries (gatt : Nat → GattOutcome) (e : ConnectEnv)
    (c : ArduinoBLEController) (address device : Nat) (token : Int)
    (hconnected : c.isConnected = false) (hconnecting : c.isConnecting = false)
    (hreach : e.reachesResolution address device token) (hgatt : e.gatt = gatt) :
    enumerationCalls (connectToArduino e c).2.2 =
        enumerationCalls (gattRetryLoop noShutdown gatt 3 0 none).2 ∧
      (Event.queryConnectionStatus ∈ (connectToArduino e c).2.2 ↔
        ∃ j, j < 3 ∧ (gatt j).succeeded = true) ∧
      ∀ j g, j < 3 → gatt j = .result g → g.statusSuccess = true →
        (∀ i, i < j → (gatt i).succeeded = false) →
        enumerationCalls (connectToArduino e c).2.2 = j + 1 ∧
          ((connectToArduino e c).1 = true ↔
            e.status = .connected ∧
              ∃ s ch, (findSwitchCharacteristic switchGuid g.services).1 = .found s ch) ∧
          ∀ s ch, e.status = .connected →
            (findSwitchCharacteristic switchGuid g.services).1 = .found s ch →
            (connectToArduino e c).2.1 =
              { resolutionEntry e c device token with
                switchCharacteristic := some ch
                gattService := some s
                isConnected := true
                isConnecting := false } := by
  obtain ⟨hscan, hdevice, hregister, hexit⟩ := hreach
  subst hgatt
  have hcalls := connectToArduino_calls_through_loop e c address device token hconnected
    hconnecting hscan hdevice hregister
  have hcheck := connectToArduino_status_check e c address device token hconnected
    hconnecting hscan hdevice hregister
  have hthrough := connectToArduino_through_loop e c address device token hconnected
    hconnecting hscan hdevice hregister
  rw [hexit] at hcalls hcheck hthrough
  obtain ⟨hcount, hfailed⟩ := gattRetryLoop_three e.gatt
  refine ⟨hcalls, ?_, ?_⟩
  · rw [hcheck, hfailed]
    constructor
    · intro h
      cases h0 : (e.gatt 0).succeeded with
      | true => exact ⟨0, by decide, h0⟩
      | false =>
        cases h1 : (e.gatt 1).succeeded with
        | true => exact ⟨1, by decide, h1⟩
        | false =>
          cases h2 : (e.gatt 2).succeeded with
          | true => exact ⟨2, by decide, h2⟩
          | false => simp [h0, h1, h2] at h
    · rintro ⟨j, hj, hs⟩
      interval_cases j <;> simp [hs]
  · intro j g hj hg hsuccess hbefore
    have hsucc : (e.gatt j).succeeded = true := by
      rw [hg]
      exact hsuccess
    obtain ⟨g1, hg1, _, hres⟩ := gattRetryLoop_first_success e.gatt j hj hsucc hbefore
    have hsame : g1 = g := by
      rw [hg] at hg1
      cases hg1
      rfl
    subst hsame
    rw [hres] at hthrough
    have hresult := resolveCharacteristic_success e (resolutionEntry e c device token)
      (eventsBeforeResolution e c address ++ (gattRetryLoop noShutdown e.gatt 3 0 none).2)
      g1 hsuccess
    refine ⟨?_, ?_, ?_⟩
    · rw [hcalls, hcount]
      have h0 : 0 < j → (e.gatt 0).succeeded = false := fun h => hbefore 0 h
      have h1 : 1 < j → (e.gatt 1).succeeded = false := fun h => hbefore 1 h
      interval_cases j
      · simp [hsucc]
      · simp [hsucc, h0 (by decide)]
      · simp [h0 (by decide), h1 (by decide)]
    · rw [hthrough]
      exact hresult.1
    · intro s ch hstatus hfound
      rw [hthrough]
      exact hresult.2 s ch hstatus hfound

/-- C13: for every sequence `gatt` of outcomes of the service enumeration
(`Success`, another status, or an exception), with no shutdown requested, the
retry loop of one attempt calls the enumeration at most 3 times; it stops at
the first `Success`, after exactly `j + 1` calls when that is outcome `j`, and
keeps its result; with no `Success` among the first three it makes exactly 3
calls.  The condition of line 367 holds exactly when none of the first three
outcomes is `Success`, and then the attempt cleans up, clears `isConnecting`
and returns false, while otherwise it goes on to ask the connection status.
An exception counts as a status that is not `Success`: two sequences that
agree on where the successes are give the same number of calls and the same
verdict.  For any retry budget and any exit flags the loop makes at most as
many calls as its budget, so it ends, and every call of `connectToArduino`
makes at most 3 enumeration calls.

The last three parts are about the whole `connectToArduino` on an attempt that
reaches the loop.  With three outcomes that are not `Success` it returns false,
released, after 3 calls.  It makes the calls of the loop and no other; it gets
past line 367 to the status check of line 374 exactly when one of the first
three outcomes is `Success`; when the first `Success` is outcome `j` with
result `g`, it makes `j + 1` calls and goes on with `g`: it returns true
exactly when the device reports connected and the search of `g`s services
finds the switch characteristic, whose handle it then stores.  And it declares
resolution failure (no status check, result false, released, 3 calls) exactly
when none of the first three outcomes is `Success`. -/
theorem enumeration_retries (gatt : Nat → GattOutcome) :
    enumerationCalls (gattRetryLoop noShutdown gatt 3 0 none).2 ≤ 3 ∧
      (∀ j, j < 3 → (gatt j).succeeded = true → (∀ i, i < j → (gatt i).succeeded = false) →
        enumerationCalls (gattRetryLoop noShutdown gatt 3 0 none).2 = j + 1 ∧
          ∃ g, gatt j = .result g ∧ (gattRetryLoop noShutdown gatt 3 0 none).1 = some g) ∧
      ((∀ j, j < 3 → (gatt j).succeeded = false) →
        enumerationCalls (gattRetryLoop noShutdown gatt 3 0 none).2 = 3) ∧
      (resolutionFailed (gattRetryLoop noShutdown gatt 3 0 none).1 = true ↔
        ∀ j, j < 3 → (gatt j).succeeded = false) ∧
      (∀ (e : ConnectEnv) (c : ArduinoBLEController) (events : List Event),
        resolutionFailed (gattRetryLoop noShutdown gatt 3 0 none).1 = true →
        ∃ c1 events1,
          resolveCharacteristic e c events (gattRetryLoop noShutdown gatt 3 0 none).1 =
            .returned false c1 events1 ∧ c1.released) ∧
      (∀ (e : ConnectEnv) (c : ArduinoBLEController) (events : List Event),
        resolutionFailed (gattRetryLoop noShutdown gatt 3 0 none).1 = false →
        ∃ tail,
          (resolveCharacteristic e c events (gattRetryLoop noShutdown gatt 3 0 none).1).events =
            events ++ Event.queryConnectionStatus :: tail) ∧
      (∀ other : Nat → GattOutcome, (∀ j, (other j).succeeded = (gatt j).succeeded) →
        enumerationCalls (gattRetryLoop noShutdown other 3 0 none).2 =
            enumerationCalls (gattRetryLoop noShutdown gatt 3 0 none).2 ∧
          resolutionFailed (gattRetryLoop noShutdown other 3 0 none).1 =
            resolutionFailed (gattRetryLoop noShutdown gatt 3 0 none).1) ∧
      (∀ (exitAtRetry : Nat → Bool) (retries call : Nat)
          (gattResult : Option GattDeviceServicesResult),
        enumerationCalls (gattRetryLoop exitAtRetry gatt retries call gattResult).2 ≤ retries) ∧
      (∀ (e : ConnectEnv) (c : ArduinoBLEController),
        enumerationCalls (connectToArduino e c).2.2 ≤ 3) ∧
      (∀ (e : ConnectEnv) (c : ArduinoBLEController) (address device : Nat) (token : Int),
        c.isConnected = false → c.isConnecting = false →
        e.scan = .finished true false address → e.deviceTask = .result (some device) →
        e.registerHandler = .token token → e.exitAtRetry = noShutdown → e.gatt = gatt →
        (∀ j, j < 3 → (gatt j).succeeded = false) →
        (connectToArduino e c).1 = false ∧ (connectToArduino e c).2.1.released ∧
          enumerationCalls (connectToArduino e c).2.2 = 3) ∧
      (∀ (e : ConnectEnv) (c : ArduinoBLEController) (address device : Nat) (token : Int),
        c.isConnected = false → c.isConnecting = false →
        e.reachesResolution address device token → e.gatt = gatt →
        enumerationCalls (connectToArduino e c).2.2 =
            enumerationCalls (gattRetryLoop noShutdown gatt 3 0 none).2 ∧
          (Event.queryConnectionStatus ∈ (connectToArduino e c).2.2 ↔
            ∃ j, j < 3 ∧ (gatt j).succeeded = true) ∧
          ∀ j g, j < 3 → gatt j = .result g → g.statusSuccess = true →
            (∀ i, i < j → (gatt i).succeeded = false) →
            enumerationCalls (connectToArduino e c).2.2 = j + 1 ∧
              ((connectToArduino e c).1 = true ↔
                e.status = .connected ∧
                  ∃ s ch, (findSwitchCharacteristic switchGuid g.services).1 = .found s ch) ∧
              ∀ s ch, e.status = .connected →
                (findSwitchCharacteristic switchGuid g.services).1 = .found s ch →
                (connectToArduino e c).2.1 =
                  { resolutionEntry e c device token with
                    switchCharacteristic := some ch
                    gattService := some s
                    isConnected := true
                    isConnecting := false }) ∧
      (∀ (e : ConnectEnv) (c : ArduinoBLEController) (address device : Nat) (token : Int),
        c.isConnected = false → c.isConnecting = false →
        e.reachesResolution address device token → e.gatt = gatt →
        ((Event.queryConnectionStatus ∉ (connectToArduino e c).2.2 ∧
            (connectToArduino e c).1 = false ∧ (connectToArduino e c).2.1.released ∧
            enumerationCalls (connectToArduino e c).2.2 = 3) ↔
          ∀ j, j < 3 → (gatt j).succeeded = false)) := by
  obtain ⟨hcalls, hfailed⟩ := gattRetryLoop_three gatt
  refine ⟨enumerationCalls_gattRetryLoop_le _ _ _ _ _, ?_, ?_, ?_, ?_, ?_, ?_, ?_,
    connectToArduino_calls_le, ?_, ?_, ?_⟩
  · intro j hj hsuccess hbefore
    obtain ⟨g, hg, _, hres⟩ := gattRetryLoop_first_success gatt j hj hsuccess hbefore
    refine ⟨?_, g, hg, hres⟩
    rw [hcalls]
    have h0 : 0 < j → (gatt 0).succeeded = false := fun h => hbefore 0 h
    have h1 : 1 < j → (gatt 1).succeeded = false := fun h => hbefore 1 h
    interval_cases j
    · simp [hsuccess]
    · simp [hsuccess, h0 (by decide)]
    · simp [h0 (by decide), h1 (by decide)]
  · intro hfail
    rw [hcalls]
    simp [hfail 0 (by decide), hfail 1 (by decide)]
  · rw [hfailed]
    constructor
    · intro h j hj
      simp only [Bool.and_eq_true, Bool.not_eq_true'] at h
      interval_cases j
      · exact h.1.1
      · exact h.1.2
      · exact h.2
    · intro h
      simp [h 0 (by decide), h 1 (by decide), h 2 (by decide)]
  · intro e c events hf
    rw [resolveCharacteristic_failed e c events _ hf]
    obtain ⟨hd, hs, hc, h1, _⟩ := cleanupConnection_is_released e.cleanupOnFailure c
    exact ⟨_, _, rfl, hd, hs, hc, h1, rfl⟩
  · intro e c events hf
    exact resolveCharacteristic_proceeds e c events _ hf
  · intro other hsame
    obtain ⟨hcalls2, hfailed2⟩ := gattRetryLoop_three other
    rw [hcalls, hcalls2, hfailed, hfailed2, hsame 0, hsame 1, hsame 2]
    exact ⟨rfl, rfl⟩
  · intro exitAtRetry retries call gattResult
    exact enumerationCalls_gattRetryLoop_le _ _ _ _ _
  · intro e c address device token h1 h2 h3 h4 h5 h6 h7 h8
    subst h7
    exact connectToArduino_resolution_fails e c address device token h1 h2 h3 h4 h5 h6 h8
  · intro e c address device token h1 h2 hreach hgatt
    exact connectToArduino_retries gatt e c address device token h1 h2 hreach hgatt
  · intro e c address device token h1 h2 hreach hgatt
    obtain ⟨_, hcheck, _⟩ := connectToArduino_retries gatt e c address device token h1 h2
      hreach hgatt
    constructor
    · rintro ⟨hno, _, _, _⟩ j hj
      cases hs : (gatt j).succeeded with
      | false => rfl
      | true => exact absurd (hcheck.mpr ⟨j, hj, hs⟩) hno
    · intro hfail
      subst hgatt
      obtain ⟨hscan, hdevice, hregister, hexit⟩ := hreach
      obtain ⟨hres, hrel, hcalls⟩ := connectToArduino_resolution_fails e c address device token
        h1 h2 hscan hdevice hregister hexit hfail
      refine ⟨?_, hres, hrel, hcalls⟩
      intro hmem
      obtain ⟨j, hj, hs⟩ := hcheck.mp hmem
      rw [hfail j hj] at hs
      cases hs

/-- Witness of C13: the enumeration throws once and then succeeds.  The loop
makes two calls and resolution has not failed; `connectToArduino` on a
constructed controller makes two calls as well and returns true. -/
theorem enumeration_retries_witness :
    enumerationCalls (gattRetryLoop noShutdown flakyEnumeration 3 0 none).2 = 1 + 1 ∧
      resolutionFailed (gattRetryLoop noShutdown flakyEnumeration 3 0 none).1 = false ∧
      enumerationCalls
        (connectToArduino (flakyPeripheral 0) (ArduinoBLEController.construct 0)).2.2 = 1 + 1 ∧
      (connectToArduino (flakyPeripheral 0) (ArduinoBLEController.construct 0)).1 = true :=
  ⟨((enumeration_retries flakyEnumeration).2.1 1 (by decide) (by decide)
      (fun i hi => by
        have h0 : i = 0 := by omega
        subst h0
        decide)).1,
   by decide,
   (((enumeration_retries flakyEnumeration).2.2.2.2.2.2.2.2.2.2.1 (flakyPeripheral 0)
      (ArduinoBLEController.construct 0) 7 1 5 rfl rfl ⟨rfl, rfl, rfl, rfl⟩ rfl).2.2 1
      { statusSuccess := true
        services :=
          [{ handle := 2, characteristics := .success [{ handle := 3, uuid := switchGuid }] }] }
      (by decide) rfl rfl
      (fun i hi => by
        have h0 : i = 0 := by omega
        subst h0
        decide)).1,
   by decide⟩

/-! ## The characteristic identifier: `parseUUID` on well-formed text -/

theorem char_le_iff (a b : Char) : a ≤ b ↔ a.toNat ≤ b.toNat := Iff.rfl

theorem hexDigitValue_some (ch : Char) (d : Nat) (h : hexDigitValue ch = some d) :
    d < 16 ∧ 48 ≤ ch.toNat ∧ ch.toNat ≤ 102 ∧ ch.toNat ≠ 88 ∧ ch.toNat ≠ 120 := by
  unfold hexDigitValue at h
  simp only [char_le_iff] at h
  have e0 : '0'.toNat = 48 := rfl
  have e9 : '9'.toNat = 57 := rfl
  have ea : 'a'.toNat = 97 := rfl
  have ef : 'f'.toNat = 102 := rfl
  have eA : 'A'.toNat = 65 := rfl
  have eF : 'F'.toNat = 70 := rfl
  rw [e0, e9, ea, ef, eA, eF] at h
  split at h
  · simp only [Option.some.injEq] at h; omega
  · split at h
    · simp only [Option.some.injEq] at h; omega
    · split at h
      · simp only [Option.some.injEq] at h; omega
      · cases h

theorem isHexDigit_toNat (ch : Char) (h : isHexDigit ch = true) :
    48 ≤ ch.toNat ∧ ch.toNat ≠ 88 ∧ ch.toNat ≠ 120 ∧ (hexDigitValue ch).getD 0 < 16 ∧
      hexDigitValue ch = some ((hexDigitValue ch).getD 0) := by
  unfold isHexDigit at h
  obtain ⟨d, hd⟩ := Option.isSome_iff_exists.mp h
  obtain ⟨h1, h2, _, h4, h5⟩ := hexDigitValue_some ch d hd
  rw [hd]
  exact ⟨h2, h4, h5, h1, rfl⟩

theorem wcstoulDigits_hex (l : List Char) (acc : Nat) (h : ∀ ch ∈ l, isHexDigit ch = true) :
    wcstoulDigits l acc = l.foldl (fun acc ch => acc * 16 + (hexDigitValue ch).getD 0) acc := by
  induction l generalizing acc with
  | nil => rfl
  | cons ch rest ih =>
    have hch := (isHexDigit_toNat ch (h ch (List.mem_cons_self ch rest))).2.2.2.2
    rw [wcstoulDigits, hch]
    simp only [List.foldl_cons, Option.getD_some]
    exact ih _ (fun c hc => h c (List.mem_cons_of_mem ch hc))

theorem foldl_hex_lt (l : List Char) (acc : Nat) (h : ∀ ch ∈ l, isHexDigit ch = true) :
    l.foldl (fun acc ch => acc * 16 + (hexDigitValue ch).getD 0) acc < (acc + 1) * 16 ^ l.length := by
  induction l generalizing acc with
  | nil => simp
  | cons ch rest ih =>
    have hch := (isHexDigit_toNat ch (h ch (List.mem_cons_self ch rest))).2.2.2.1
    have := ih (acc * 16 + (hexDigitValue ch).getD 0) (fun c hc => h c (List.mem_cons_of_mem ch hc))
    simp only [List.foldl_cons, List.length_cons]
    calc _ < (acc * 16 + (hexDigitValue ch).getD 0 + 1) * 16 ^ rest.length := this
      _ ≤ ((acc + 1) * 16) * 16 ^ rest.length := Nat.mul_le_mul_right _ (by omega)
      _ = (acc + 1) * 16 ^ (rest.length + 1) := by ring

theorem hexValue_lt (l : List Char) (h : ∀ ch ∈ l, isHexDigit ch = true) :
    hexValue l < 16 ^ l.length := by
  have := foldl_hex_lt l 0 h
  simpa [hexValue] using this

theorem wcstoul16_hex (l : List Char) (h : ∀ ch ∈ l, isHexDigit ch = true)
    (hlen : l.length ≤ 8) : wcstoul16 l = hexValue l := by
  have hv : hexValue l ≤ ULONG_MAX := by
    have h1 := hexValue_lt l h
    have h2 : 16 ^ l.length ≤ 16 ^ 8 := Nat.pow_le_pow_right (by decide) hlen
    have h3 : (16 : Nat) ^ 8 = ULONG_MAX + 1 := by decide
    omega
  cases l with
  | nil => decide
  | cons ch rest =>
    obtain ⟨h48, h88, h120, _, _⟩ := isHexDigit_toNat ch (h ch (List.mem_cons_self ch rest))
    have hsp : iswspace ch = false := by
      have hne : ch ≠ ' ' := by
        intro he; rw [he] at h48; revert h48; decide
      simp [iswspace, hne]
      omega
    have hminus : ch ≠ '-' := by
      intro he; rw [he] at h48; revert h48; decide
    have hplus : ch ≠ '+' := by
      intro he; rw [he] at h48; revert h48; decide
    have hdigits := wcstoulDigits_hex (ch :: rest) 0 h
    unfold wcstoul16
    simp only [List.dropWhile_cons, hsp, Bool.false_eq_true, if_false]
    have hsigned : (match ch :: rest with
        | '-' :: r => (true, r)
        | '+' :: r => (false, r)
        | _ => (false, ch :: rest)) = (false, ch :: rest) := by
      split
      · rename_i heq; simp only [List.cons.injEq] at heq; exact absurd heq.1 hminus
      · rename_i heq; simp only [List.cons.injEq] at heq; exact absurd heq.1 hplus
      · rfl
    rw [hsigned]
    have hlead : (match ch :: rest with
        | '0' :: 'x' :: r => r
        | '0' :: 'X' :: r => r
        | _ => ch :: rest) = ch :: rest := by
      split
      · rename_i r heq
        simp only [List.cons.injEq] at heq
        have hx := (isHexDigit_toNat 'x' (h 'x' (by rw [heq.2]; simp))).2.2.1
        exact absurd rfl hx
      · rename_i r heq
        simp only [List.cons.injEq] at heq
        have hx := (isHexDigit_toNat 'X' (h 'X' (by rw [heq.2]; simp))).2.1
        exact absurd rfl hx
      · rfl
    simp only [hlead, hdigits]
    have hfold : List.foldl (fun acc ch => acc * 16 + (hexDigitValue ch).getD 0) 0 (ch :: rest) =
        hexValue (ch :: rest) := rfl
    rw [hfold]
    simp [Nat.not_lt.mpr hv]

theorem filter_hyphen_hex (d : List Char) (h : ∀ ch ∈ d, isHexDigit ch = true) :
    d.filter (fun ch => ch != '-') = d := by
  rw [List.filter_eq_self]
  intro ch hch
  have h48 := (isHexDigit_toNat ch (h ch hch)).1
  have hne : ch ≠ '-' := by
    intro he; rw [he] at h48; revert h48; decide
  simpa using hne

theorem wcstoul16_field (digits : List Char) (pos n k : Nat)
    (h : ∀ ch ∈ digits, isHexDigit ch = true) (hn : n ≤ 8) (hk : 16 ^ n ≤ k) :
    wcstoul16 ((digits.drop pos).take n) % k = hexDigitsAt digits pos n := by
  have hmem : ∀ ch ∈ (digits.drop pos).take n, isHexDigit ch = true :=
    fun ch hch => h ch (List.mem_of_mem_drop (List.mem_of_mem_take hch))
  have hlen : ((digits.drop pos).take n).length ≤ n := by
    rw [List.length_take]; exact Nat.min_le_left _ _
  rw [wcstoul16_hex _ hmem (le_trans hlen hn)]
  apply Nat.mod_eq_of_lt
  have h1 := hexValue_lt _ hmem
  have h2 : 16 ^ ((digits.drop pos).take n).length ≤ 16 ^ n :=
    Nat.pow_le_pow_right (by decide) hlen
  omega

theorem hexField_mem (n : Nat) (d : List Char) (h : hexField n d) :
    ∀ ch ∈ d, isHexDigit ch = true := by
  intro ch hch
  exact List.all_eq_true.mp h.2 ch hch

theorem parseUUID_of_fields (d1 d2 d3 d4 d5 : List Char)
    (h1 : hexField 8 d1) (h2 : hexField 4 d2) (h3 : hexField 4 d3) (h4 : hexField 4 d4)
    (h5 : hexField 12 d5) :
    (uuidText d1 d2 d3 d4 d5).toList.filter (fun ch => ch != '-') =
        d1 ++ d2 ++ d3 ++ d4 ++ d5 ∧
      parseUUID (uuidText d1 d2 d3 d4 d5) =
        some
          { Data1 := hexDigitsAt (d1 ++ d2 ++ d3 ++ d4 ++ d5) 0 8
            Data2 := hexDigitsAt (d1 ++ d2 ++ d3 ++ d4 ++ d5) 8 4
            Data3 := hexDigitsAt (d1 ++ d2 ++ d3 ++ d4 ++ d5) 12 4
            Data4 := (List.range 8).map
              (fun i => hexDigitsAt (d1 ++ d2 ++ d3 ++ d4 ++ d5) (16 + 2 * i) 2) } := by
  have m1 := hexField_mem 8 d1 h1
  have m2 := hexField_mem 4 d2 h2
  have m3 := hexField_mem 4 d3 h3
  have m4 := hexField_mem 4 d4 h4
  have m5 := hexField_mem 12 d5 h5
  have hclean : (uuidText d1 d2 d3 d4 d5).toList.filter (fun ch => ch != '-') =
      d1 ++ d2 ++ d3 ++ d4 ++ d5 := by
    show (d1 ++ '-' :: (d2 ++ '-' :: (d3 ++ '-' :: (d4 ++ '-' :: d5)))).filter
      (fun ch => ch != '-') = _
    simp only [List.filter_append, List.filter_cons, filter_hyphen_hex _ m1,
      filter_hyphen_hex _ m2, filter_hyphen_hex _ m3, filter_hyphen_hex _ m4,
      filter_hyphen_hex _ m5]
    simp
  refine ⟨hclean, ?_⟩
  have hlen : (d1 ++ d2 ++ d3 ++ d4 ++ d5).length = 32 := by
    simp [h1.1, h2.1, h3.1, h4.1, h5.1]
  have hhex : ∀ ch ∈ d1 ++ d2 ++ d3 ++ d4 ++ d5, isHexDigit ch = true := by
    intro ch hch
    simp only [List.mem_append] at hch
    rcases hch with (((hch | hch) | hch) | hch) | hch
    · exact m1 ch hch
    · exact m2 ch hch
    · exact m3 ch hch
    · exact m4 ch hch
    · exact m5 ch hch
  have hsub : ∀ pos n, pos ≤ 32 → substr (d1 ++ d2 ++ d3 ++ d4 ++ d5) pos n =
      some (((d1 ++ d2 ++ d3 ++ d4 ++ d5).drop pos).take n) := by
    intro pos n hpos
    have : ¬ pos > (d1 ++ d2 ++ d3 ++ d4 ++ d5).length := by rw [hlen]; omega
    simp only [substr, this, if_false]
  simp only [parseUUID, hclean]
  generalize d1 ++ d2 ++ d3 ++ d4 ++ d5 = digits at hlen hhex hsub ⊢
  simp only [hsub 0 8 (by decide), hsub 8 4 (by decide), hsub 12 4 (by decide),
    List.mapM_cons, List.mapM_nil, hsub 16 2 (by decide), hsub 18 2 (by decide),
    hsub 20 2 (by decide), hsub 22 2 (by decide), hsub 24 2 (by decide), hsub 26 2 (by decide),
    hsub 28 2 (by decide), hsub 30 2 (by decide)]
  simp only [Option.pure_def, Option.bind_eq_bind, Option.some_bind, List.map_cons, List.map_nil,
    wcstoul16_field digits _ _ _ hhex (by decide : 8 ≤ 8) (by decide : 16 ^ 8 ≤ 2 ^ 32),
    wcstoul16_field digits _ _ _ hhex (by decide : 4 ≤ 8) (by decide : 16 ^ 4 ≤ 2 ^ 16),
    wcstoul16_field digits _ _ _ hhex (by decide : 2 ≤ 8) (by decide : 16 ^ 2 ≤ 2 ^ 8)]
  rfl

theorem upperHexDigit_value (ch : Char) (h : isUpperHexDigit ch = true) :
    isHexDigit ch = true ∧ upperHexDigit ((hexDigitValue ch).getD 0) = ch := by
  have e0 : '0'.toNat = 48 := rfl
  have e9 : '9'.toNat = 57 := rfl
  have ea : 'a'.toNat = 97 := rfl
  have ef : 'f'.toNat = 102 := rfl
  have eA : 'A'.toNat = 65 := rfl
  have eF : 'F'.toNat = 70 := rfl
  simp only [isUpperHexDigit, Bool.or_eq_true, decide_eq_true_eq, char_le_iff, e0, e9, eA, eF] at h
  simp only [isHexDigit, hexDigitValue, upperHexDigit, char_le_iff, e0, e9, ea, ef, eA, eF]
  rcases h with h | h
  · have hc : 48 ≤ ch.toNat ∧ ch.toNat ≤ 57 := h
    simp only [hc, and_self, if_true, Option.isSome_some, Option.getD_some, true_and]
    have h1 : ch.toNat - 48 < 10 := by omega
    have h2 : 48 + (ch.toNat - 48) = ch.toNat := by omega
    simp only [h1, if_true, h2, Char.ofNat_toNat]
  · have hn1 : ¬ (48 ≤ ch.toNat ∧ ch.toNat ≤ 57) := by omega
    have hn2 : ¬ (97 ≤ ch.toNat ∧ ch.toNat ≤ 102) := by omega
    simp only [hn1, hn2, if_false, h, and_self, if_true, Option.isSome_some, Option.getD_some,
      true_and]
    have h1 : ¬ ch.toNat - 65 + 10 < 10 := by omega
    have h2 : 65 + (ch.toNat - 65 + 10 - 10) = ch.toNat := by omega
    simp only [h1, if_false, h2, Char.ofNat_toNat]

theorem hexValue_append_singleton (l : List Char) (ch : Char) :
    hexValue (l ++ [ch]) = hexValue l * 16 + (hexDigitValue ch).getD 0 := by
  simp [hexValue, List.foldl_append]

theorem upperHex_hexValue (l : List Char) (h : ∀ ch ∈ l, isUpperHexDigit ch = true) :
    upperHex l.length (hexValue l) = l := by
  induction l using List.reverseRecOn with
  | nil => rfl
  | append_singleton l ch ih =>
    have hch := upperHexDigit_value ch (h ch (by simp))
    have hlt := (isHexDigit_toNat ch hch.1).2.2.2.1
    rw [hexValue_append_singleton, List.length_append, List.length_singleton, upperHex]
    have h1 : (hexValue l * 16 + (hexDigitValue ch).getD 0) / 16 = hexValue l := by omega
    have h2 : (hexValue l * 16 + (hexDigitValue ch).getD 0) % 16 = (hexDigitValue ch).getD 0 := by
      omega
    rw [h1, h2, ih (fun c hc => h c (by simp [hc])), hch.2]

theorem upperHexField_mem (n : Nat) (d : List Char) (h : upperHexField n d) :
    ∀ ch ∈ d, isUpperHexDigit ch = true := by
  intro ch hch
  exact List.all_eq_true.mp h.2 ch hch

theorem upperHexField_hexField (n : Nat) (d : List Char) (h : upperHexField n d) :
    hexField n d :=
  ⟨h.1, List.all_eq_true.mpr
    (fun ch hch => (upperHexDigit_value ch (upperHexField_mem n d h ch hch)).1)⟩

theorem upperHex_field (n : Nat) (d : List Char) (h : upperHexField n d) :
    upperHex n (hexValue d) = d := by
  have := upperHex_hexValue d (upperHexField_mem n d h)
  rwa [h.1] at this

theorem upperHex_pair (x y : Char) (hx : isUpperHexDigit x = true)
    (hy : isUpperHexDigit y = true) : upperHex 2 (hexValue [x, y]) = [x, y] := by
  have h := upperHex_hexValue [x, y] (by
    intro ch hch
    simp only [List.mem_cons, List.mem_singleton, List.not_mem_nil, or_false] at hch
    rcases hch with rfl | rfl
    · exact hx
    · exact hy)
  simpa using h

theorem canonicalUpperCase_parseUUID (d1 d2 d3 d4 d5 : List Char)
    (h1 : upperHexField 8 d1) (h2 : upperHexField 4 d2) (h3 : upperHexField 4 d3)
    (h4 : upperHexField 4 d4) (h5 : upperHexField 12 d5) :
    (parseUUID (uuidText d1 d2 d3 d4 d5)).map canonicalUpperCase =
      some (uuidText d1 d2 d3 d4 d5) := by
  rw [(parseUUID_of_fields d1 d2 d3 d4 d5 (upperHexField_hexField _ _ h1)
    (upperHexField_hexField _ _ h2) (upperHexField_hexField _ _ h3)
    (upperHexField_hexField _ _ h4) (upperHexField_hexField _ _ h5)).2]
  have e1 := upperHex_field 8 d1 h1
  have e2 := upperHex_field 4 d2 h2
  have e3 := upperHex_field 4 d3 h3
  have m4 := upperHexField_mem 4 d4 h4
  have m5 := upperHexField_mem 12 d5 h5
  match d1, h1.1, d2, h2.1, d3, h3.1, d4, h4.1, d5, h5.1 with
  | [a0, a1, a2, a3, a4, a5, a6, a7], _, [b0, b1, b2, b3], _, [c0, c1, c2, c3], _,
    [p0, p1, p2, p3], _, [q0, q1, q2, q3, q4, q5, q6, q7, q8, q9, q10, q11], _ =>
    have k0 := upperHex_pair p0 p1 (m4 p0 (by simp)) (m4 p1 (by simp))
    have k1 := upperHex_pair p2 p3 (m4 p2 (by simp)) (m4 p3 (by simp))
    have k2 := upperHex_pair q0 q1 (m5 q0 (by simp)) (m5 q1 (by simp))
    have k3 := upperHex_pair q2 q3 (m5 q2 (by simp)) (m5 q3 (by simp))
    have k4 := upperHex_pair q4 q5 (m5 q4 (by simp)) (m5 q5 (by simp))
    have k5 := upperHex_pair q6 q7 (m5 q6 (by simp)) (m5 q7 (by simp))
    have k6 := upperHex_pair q8 q9 (m5 q8 (by simp)) (m5 q9 (by simp))
    have k7 := upperHex_pair q10 q11 (m5 q10 (by simp)) (m5 q11 (by simp))
    have hr : List.range 8 = [0, 1, 2, 3, 4, 5, 6, 7] := by decide
    simp only [Option.map_some', canonicalUpperCase, hexDigitsAt, hr, List.map_cons, List.map_nil,
      List.cons_append, List.nil_append, List.drop, List.take, List.flatMap_cons,
      List.flatMap_nil, List.append_nil, e1, e2, e3, k0, k1, k2, k3, k4, k5, k6, k7]

/-- C15: for every text of five fields of 8, 4, 4, 4 and 12 hexadecimal digits
with hyphens between them, `parseUUID` erases the hyphens, leaving the 32
digits, and returns the guid whose `Data1` is the value of digits 0..7,
`Data2` of digits 8..11, `Data3` of digits 12..15 and `Data4[i]` of digits
`16+2i..17+2i` for `i` from 0 to 7.  On the constant of line 203 the result is
`{0x19B10001, 0xE8F2, 0x537E, {0x4F, 0x6C, 0xD1, 0x04, 0x76, 0x8A, 0x12, 0x14}}`,
and its canonical upper-case text is that constant again; so it is for every
such text whose digits are in upper case. -/
theorem parseUUID_reads_fields :
    (∀ d1 d2 d3 d4 d5 : List Char,
        hexField 8 d1 → hexField 4 d2 → hexField 4 d3 → hexField 4 d4 → hexField 12 d5 →
        (uuidText d1 d2 d3 d4 d5).toList.filter (fun ch => ch != '-') =
            d1 ++ d2 ++ d3 ++ d4 ++ d5 ∧
          parseUUID (uuidText d1 d2 d3 d4 d5) =
            some
              { Data1 := hexDigitsAt (d1 ++ d2 ++ d3 ++ d4 ++ d5) 0 8
                Data2 := hexDigitsAt (d1 ++ d2 ++ d3 ++ d4 ++ d5) 8 4
                Data3 := hexDigitsAt (d1 ++ d2 ++ d3 ++ d4 ++ d5) 12 4
                Data4 := (List.range 8).map
                  (fun i => hexDigitsAt (d1 ++ d2 ++ d3 ++ d4 ++ d5) (16 + 2 * i) 2) }) ∧
      parseUUID SWITCH_CHARACTERISTIC_UUID =
        some
          { Data1 := 0x19B10001, Data2 := 0xE8F2, Data3 := 0x537E,
            Data4 := [0x4F, 0x6C, 0xD1, 0x04, 0x76, 0x8A, 0x12, 0x14] } ∧
      (parseUUID SWITCH_CHARACTERISTIC_UUID).map canonicalUpperCase =
        some SWITCH_CHARACTERISTIC_UUID ∧
      (∀ d1 d2 d3 d4 d5 : List Char,
        upperHexField 8 d1 → upperHexField 4 d2 → upperHexField 4 d3 → upperHexField 4 d4 →
        upperHexField 12 d5 →
        (parseUUID (uuidText d1 d2 d3 d4 d5)).map canonicalUpperCase =
          some (uuidText d1 d2 d3 d4 d5)) := by
  refine ⟨parseUUID_of_fields, ?_, ?_, canonicalUpperCase_parseUUID⟩
  · decide
  · decide

/-- Witness of C15: a text in lower case, `0a1b2c3d-4e5f-6071-8293-a4b5c6d7e8f9`. -/
theorem parseUUID_reads_fields_witness :
    uuidText "0a1b2c3d".toList "4e5f".toList "6071".toList "8293".toList "a4b5c6d7e8f9".toList =
        "0a1b2c3d-4e5f-6071-8293-a4b5c6d7e8f9" ∧
      parseUUID
          (uuidText "0a1b2c3d".toList "4e5f".toList "6071".toList "8293".toList
            "a4b5c6d7e8f9".toList) =
        some
          { Data1 := 0x0A1B2C3D, Data2 := 0x4E5F, Data3 := 0x6071,
            Data4 := [0x82, 0x93, 0xA4, 0xB5, 0xC6, 0xD7, 0xE8, 0xF9] } :=
  ⟨by decide,
   ((parseUUID_reads_fields.1 "0a1b2c3d".toList "4e5f".toList "6071".toList "8293".toList
      "a4b5c6d7e8f9".toList (by decide) (by decide) (by decide) (by decide) (by decide)).2.trans
    (by decide))⟩

end MicrophoneDetector
